import Mathlib

/-!
# MediaBoard: authentication middleware and rate-limit override

A shallow embedding of

* `backend/src/middleware/auth.js` (`authenticateToken`, `optionalAuth`), and
* the `POST /api/clear-cache` handler of `backend/src/server.js`,

followed by the properties of the specification that concern them.

JavaScript effects are made explicit: a middleware is a function from the
injected services and the current request/response state to a completion
(returned normally, or threw) together with the new state.  Every observable
effect (a verifier call, a call of `next`, `res.status`, `res.json`,
`console.error`) is appended to a trace, so that call counts and call order
can be stated.
-/

namespace MediaBoard

/-! ## Values and effects -/

/-- How a JavaScript call completes: it returns a value or it throws.  An
`await` of a rejected promise is a throw at the `await`. -/
inductive Completion (α : Type) where
  | returned (value : α)
  | thrown (error : String)
  deriving DecidableEq, Repr

/-- Where a principal comes from. -/
inductive Source where
  | selfIssued
  | external
  deriving DecidableEq, Repr

/-- Modelled from the spec: the object returned by the verifiers of
`services/authService` (not part of the sources at hand): a normalized
identity with `id`, an optional `email` and its `source`. -/
structure Principal where
  id : String
  email : Option String
  source : Source
  deriving DecidableEq, Repr

/-- The observable effects of one middleware run, in program order. -/
inductive Event where
  | verifyToken (token : String)
  | verifySupabaseToken (token : String)
  | next
  | status (code : Nat)
  | json (error : String) (code : String)
  | consoleError (label : String) (error : String)
  deriving DecidableEq, Repr

/-- The injected collaborators of the middleware.  `verifyToken` and
`verifySupabaseToken` are the two methods of `authService`; a falsy return
value (`null`) is `none`.  `next k` is the completion of the call of the
downstream callback `next` that is made after `k` earlier calls. -/
structure Services where
  verifyToken : String → Completion (Option Principal)
  verifySupabaseToken : String → Completion (Option Principal)
  next : Nat → Completion Unit

/-- The part of `req.headers` the middleware reads: `authorization` is a
string, or `undefined` (`none`). -/
structure Headers where
  authorization : Option String
  deriving DecidableEq, Repr

/-- The request as it reaches the middleware. -/
structure Request where
  headers : Headers
  user : Option Principal
  deriving DecidableEq, Repr

/-- The body passed to `res.json`. -/
structure ErrorBody where
  error : String
  code : String
  deriving DecidableEq, Repr

/-- The mutable state of one request: `req.user`, `res.statusCode` (200 until
`res.status` is called), the body sent by `res.json` if any, and the trace of
effects so far. -/
structure Exchange where
  user : Option Principal
  statusCode : Nat
  body : Option ErrorBody
  trace : List Event
  deriving DecidableEq, Repr

/-- The state in which a middleware starts on `req`. -/
def Exchange.start (req : Request) : Exchange :=
  { user := req.user, statusCode := 200, body := none, trace := [] }

/-- Number of calls of `next` so far. -/
def Exchange.nextCalls (x : Exchange) : Nat :=
  x.trace.count Event.next

/-- The tokens `authService.verifyToken` was called with, in order. -/
def Exchange.verifyTokenCalls (x : Exchange) : List String :=
  x.trace.filterMap fun e => match e with
    | Event.verifyToken t => some t
    | _ => none

/-- The tokens `authService.verifySupabaseToken` was called with, in order. -/
def Exchange.verifySupabaseTokenCalls (x : Exchange) : List String :=
  x.trace.filterMap fun e => match e with
    | Event.verifySupabaseToken t => some t
    | _ => none

/-- A computation of the middleware. -/
def Mw (α : Type) : Type :=
  Services → Exchange → Completion α × Exchange

/-- Return a value without effect. -/
def Mw.pure {α : Type} (a : α) : Mw α :=
  fun _ x => (Completion.returned a, x)

/-- Sequencing: a throw of the first computation skips the second. -/
def Mw.bind {α β : Type} (m : Mw α) (f : α → Mw β) : Mw β :=
  fun sv x =>
    match m sv x with
    | (Completion.returned a, x1) => f a sv x1
    | (Completion.thrown e, x1) => (Completion.thrown e, x1)

instance : Monad Mw where
  pure := Mw.pure
  bind := Mw.bind

/-- The statement `try { body } catch (error) { handler error }`. -/
def Mw.tryCatch {α : Type} (body : Mw α) (handler : String → Mw α) : Mw α :=
  fun sv x =>
    match body sv x with
    | (Completion.returned a, x1) => (Completion.returned a, x1)
    | (Completion.thrown e, x1) => handler e sv x1

/-- The call `authService.verifyToken(token)`. -/
def verifyToken (token : String) : Mw (Option Principal) :=
  fun sv x => (sv.verifyToken token, { x with trace := x.trace ++ [Event.verifyToken token] })

/-- The expression `await authService.verifySupabaseToken(token)`. -/
def verifySupabaseToken (token : String) : Mw (Option Principal) :=
  fun sv x =>
    (sv.verifySupabaseToken token,
      { x with trace := x.trace ++ [Event.verifySupabaseToken token] })

/-- The call `next()`. -/
def next : Mw Unit :=
  fun sv x => (sv.next x.nextCalls, { x with trace := x.trace ++ [Event.next] })

/-- The assignment `req.user = user`. -/
def setUser (user : Principal) : Mw Unit :=
  fun _ x => (Completion.returned (), { x with user := some user })

/-- The call `res.status(code).json({ error, code })`. -/
def resStatusJson (status : Nat) (error : String) (code : String) : Mw Unit :=
  fun _ x =>
    (Completion.returned (),
      { x with
        statusCode := status
        body := some { error := error, code := code }
        trace := x.trace ++ [Event.status status, Event.json error code] })

/-- The call `console.error(label, error)`. -/
def consoleError (label : String) (error : String) : Mw Unit :=
  fun _ x =>
    (Completion.returned (), { x with trace := x.trace ++ [Event.consoleError label error] })

/-! ## Reading the token -/

/-- The method `String.prototype.split(' ')` on the characters of a string:
the pieces between consecutive spaces, empty pieces included. -/
def splitSpace : List Char → List (List Char)
  | [] => [[]]
  | c :: cs =>
    if c = ' ' then [] :: splitSpace cs
    else
      match splitSpace cs with
      | [] => [[c]]
      | w :: ws => (c :: w) :: ws

/-- The expression `authHeader && authHeader.split(' ')[1]`: a falsy header
(`undefined` or the empty string) is the result itself; otherwise the second
piece of the split, `undefined` when there is none. -/
def tokenOf (authHeader : Option String) : Option String :=
  match authHeader with
  | none => none
  | some h =>
    if h = "" then some ""
    else ((splitSpace h.data)[1]?).map String.mk

/-- JavaScript truthiness of a value that is `undefined` or a string. -/
def truthy (v : Option String) : Bool :=
  match v with
  | none => false
  | some s => s != ""

/-! ## The two middlewares of `middleware/auth.js` -/

/-- The middleware `authenticateToken(req, res, next)`.  The whole body,
the call of `next` included, is inside the `try` block.  Where the token is
truthy it is a non-empty string, read with `token.getD ""`. -/
def authenticateToken (req : Request) : Mw Unit :=
  Mw.tryCatch
    (let authHeader := req.headers.authorization
     let token := tokenOf authHeader
     if !truthy token then
       resStatusJson 401 "Access token required" "MISSING_TOKEN"
     else do
       let user ← verifyToken (token.getD "")
       let user ← (match user with
         | none => verifySupabaseToken (token.getD "")
         | some u => Mw.pure (some u))
       match user with
       | none => resStatusJson 401 "Invalid or expired token" "INVALID_TOKEN"
       | some u => do
         setUser u
         next)
    (fun error => do
      consoleError "Authentication error:" error
      resStatusJson 500 "Authentication service error" "AUTH_SERVICE_ERROR")

/-- The middleware `optionalAuth(req, res, next)`.  The call of `next` that
ends the `try` block is inside it; the `catch` block calls `next` as well. -/
def optionalAuth (req : Request) : Mw Unit :=
  Mw.tryCatch
    (let authHeader := req.headers.authorization
     let token := tokenOf authHeader
     do
       (if truthy token then do
          let user ← verifyToken (token.getD "")
          let user ← (match user with
            | none => verifySupabaseToken (token.getD "")
            | some u => Mw.pure (some u))
          match user with
          | some u => setUser u
          | none => Mw.pure ()
        else Mw.pure ())
       next)
    (fun error => do
      consoleError "Optional auth error:" error
      next)

/-- One run of `authenticateToken` on a fresh request: how the returned promise
settles, and the final state. -/
def runAuthenticateToken (sv : Services) (req : Request) : Completion Unit × Exchange :=
  authenticateToken req sv (Exchange.start req)

/-- One run of `optionalAuth` on a fresh request. -/
def runOptionalAuth (sv : Services) (req : Request) : Completion Unit × Exchange :=
  optionalAuth req sv (Exchange.start req)

/-! ### Sample inputs -/

/-- A principal used in the examples. -/
def alice : Principal :=
  { id := "u1", email := some "alice@example.com", source := Source.selfIssued }

/-- A request with the given `Authorization` header and no `req.user`. -/
def requestWith (authorization : Option String) : Request :=
  { headers := { authorization := authorization }, user := none }

/-- Services whose verifiers and `next` behave the same on every call. -/
def constServices (vt vs : Completion (Option Principal)) (nx : Completion Unit) : Services :=
  { verifyToken := fun _ => vt, verifySupabaseToken := fun _ => vs, next := fun _ => nx }

/-! ## Responses and path ends -/

/-- The body sent for a missing token. -/
def missingToken : ErrorBody :=
  { error := "Access token required", code := "MISSING_TOKEN" }

/-- The body sent for a token both verifiers reject. -/
def invalidToken : ErrorBody :=
  { error := "Invalid or expired token", code := "INVALID_TOKEN" }

/-- The body sent by the `catch` block of `authenticateToken`. -/
def authServiceError : ErrorBody :=
  { error := "Authentication service error", code := "AUTH_SERVICE_ERROR" }

/-- The end of `authenticateToken` on its accepting path, from the state in
which `pre` has happened: `req.user = u; next()`, and the `catch` block when
`next` throws. -/
def acceptTail (sv : Services) (u : Principal) (pre : List Event) : Completion Unit × Exchange :=
  match sv.next 0 with
  | Completion.returned _ =>
    (Completion.returned (),
      { user := some u, statusCode := 200, body := none, trace := pre ++ [Event.next] })
  | Completion.thrown e =>
    (Completion.returned (),
      { user := some u, statusCode := 500, body := some authServiceError,
        trace := pre ++ [Event.next, Event.consoleError "Authentication error:" e,
          Event.status 500, Event.json "Authentication service error" "AUTH_SERVICE_ERROR"] })

/-- The end of `optionalAuth` when resolution did not throw, from the state in
which `pre` has happened and `req.user` is `usr`: `next()`, and the `catch`
block, which calls `next` again, when that call throws. -/
def proceedTail (sv : Services) (usr : Option Principal) (pre : List Event) :
    Completion Unit × Exchange :=
  match sv.next 0 with
  | Completion.returned _ =>
    (Completion.returned (),
      { user := usr, statusCode := 200, body := none, trace := pre ++ [Event.next] })
  | Completion.thrown e =>
    (sv.next 1,
      { user := usr, statusCode := 200, body := none,
        trace := pre ++ [Event.next, Event.consoleError "Optional auth error:" e, Event.next] })

/-- The resolution order in the words of the specification: without a
credential there is no principal; otherwise the principal is the one the Token
Verifier returns, or, when it returns none, the one the External Identity
Verifier returns; a verifier that throws yields no principal. -/
def resolution (sv : Services) (authorization : Option String) : Option Principal :=
  match tokenOf authorization with
  | none => none
  | some t =>
    if t = "" then none
    else
      match sv.verifyToken t with
      | Completion.returned (some u) => some u
      | Completion.returned none =>
        (match sv.verifySupabaseToken t with
          | Completion.returned r => r
          | Completion.thrown _ => none)
      | Completion.thrown _ => none

/-- Outcome (a) of the specification: the principal of the resolution is
attached and the request proceeds: `next` called once, no response sent. -/
def Attached (sv : Services) (req : Request) (r : Completion Unit × Exchange) : Prop :=
  r.2.user.isSome = true ∧ r.2.user = resolution sv req.headers.authorization ∧
    r.2.nextCalls = 1 ∧ r.2.body = none ∧ r.2.statusCode = 200

/-- Outcome (b): the request is rejected: a 401 or 500 response is sent,
`next` is not called and `req.user` is unset. -/
def Rejected (r : Completion Unit × Exchange) : Prop :=
  r.2.body.isSome = true ∧ (r.2.statusCode = 401 ∨ r.2.statusCode = 500) ∧
    r.2.nextCalls = 0 ∧ r.2.user = none

/-- Outcome (c): the request proceeds with `req.user` unset: `next` called
once, no response sent. -/
def Unauthenticated (r : Completion Unit × Exchange) : Prop :=
  r.2.user = none ∧ r.2.nextCalls = 1 ∧ r.2.body = none ∧ r.2.statusCode = 200

/-- Services in which the Token Verifier accepts and every call of the
downstream callback `next` throws. -/
def throwingNext : Services :=
  constServices (Completion.returned (some alice)) (Completion.returned none)
    (Completion.thrown "downstream failure")

/-- Services in which the Token Verifier accepts and `next` returns. -/
def acceptingServices : Services :=
  constServices (Completion.returned (some alice)) (Completion.returned none)
    (Completion.returned ())

/-- Services in which the Token Verifier rejects, the External Identity
Verifier accepts and `next` returns. -/
def fallbackServices : Services :=
  constServices (Completion.returned none) (Completion.returned (some alice))
    (Completion.returned ())

/-- Services in which both verifiers reject and `next` returns. -/
def rejectingServices : Services :=
  constServices (Completion.returned none) (Completion.returned none) (Completion.returned ())

/-- Services in which the Token Verifier throws. -/
def faultyServices : Services :=
  constServices (Completion.thrown "secret unavailable") (Completion.returned none)
    (Completion.returned ())

/-! ## The header forms -/

/-- The header form the specification names, `Bearer <token>`: the word
`Bearer`, one space, and a non-empty token without a space. -/
def isBearerForm (h : String) : Bool :=
  match h.data with
  | 'B' :: 'e' :: 'a' :: 'r' :: 'e' :: 'r' :: ' ' :: t => !t.isEmpty && !t.contains ' '
  | _ => false

/-- The headers in which the code finds no credential, described on the text
of the header: the header is absent, or its text is a space-free word `w`
followed by nothing, by a single final space, or by two spaces in a row. -/
def NoCredential (authorization : Option String) : Prop :=
  ∀ h, authorization = some h →
    ∃ w rest, h.data = w ++ rest ∧ ' ' ∉ w ∧
      (rest = [] ∨ rest = [' '] ∨ ∃ more, rest = ' ' :: ' ' :: more)

/-- What the specification requires of a request without credential:
`authenticateToken` answers 401 `MISSING_TOKEN`, calls no verifier and does
not call `next`; `optionalAuth` calls `next`, leaves `req.user` as it was,
sends nothing and calls no verifier. -/
def TreatedAsNoCredential (sv : Services) (req : Request) : Prop :=
  (runAuthenticateToken sv req).1 = Completion.returned () ∧
  (runAuthenticateToken sv req).2.statusCode = 401 ∧
  (runAuthenticateToken sv req).2.body = some missingToken ∧
  (runAuthenticateToken sv req).2.verifyTokenCalls = [] ∧
  (runAuthenticateToken sv req).2.verifySupabaseTokenCalls = [] ∧
  (runAuthenticateToken sv req).2.nextCalls = 0 ∧
  (runAuthenticateToken sv req).2.user = req.user ∧
  1 ≤ (runOptionalAuth sv req).2.nextCalls ∧
  (sv.next 0 = Completion.returned () → (runOptionalAuth sv req).2.nextCalls = 1) ∧
  (runOptionalAuth sv req).2.user = req.user ∧
  (runOptionalAuth sv req).2.body = none ∧
  (runOptionalAuth sv req).2.statusCode = 200 ∧
  (runOptionalAuth sv req).2.verifyTokenCalls = [] ∧
  (runOptionalAuth sv req).2.verifySupabaseTokenCalls = []

/-! ## The override of `POST /api/clear-cache` (`server.js`) -/

/-- Modelled from the spec: one rate-limit window of `middleware/rateLimiter`
(not part of the sources at hand), the counter of a (policy, key) pair. -/
structure Window where
  policy : String
  key : String
  count : Nat
  windowStart : Nat
  deriving DecidableEq, Repr

/-- The rate-limit store: the tracked windows. -/
abbrev RateLimitStore : Type := List Window

/-- The behaviour of one call of `clearRateLimitCache()` of
`middleware/rateLimiter`, a parameter of the model: how the call completes and
the store it leaves. -/
abbrev ClearBehaviour : Type := RateLimitStore → Completion Unit × RateLimitStore

/-- The observable effects of the server process. -/
inductive ServerEvent where
  | clearRateLimitCache
  | setEnv (name : String) (value : String)
  | deleteEnv (name : String)
  | setTimeout (delay : Nat)
  | status (code : Nat)
  | json (success : Bool)
  | consoleLog (line : String)
  deriving DecidableEq, Repr

/-- The process-wide state the handler touches.  `now` is the clock in
milliseconds, `DISABLE_RATE_LIMITING` the variable of `process.env` (`none`
when it is not defined), `timers` the due times of the pending callbacks
scheduled by the handler with `setTimeout`, in scheduling order, and `trace`
the effects so far, each with the time at which it happened. -/
structure Process where
  now : Nat
  DISABLE_RATE_LIMITING : Option String
  timers : List Nat
  store : RateLimitStore
  trace : List (Nat × ServerEvent)
  deriving DecidableEq, Repr

/-- The body passed to `res.json` by the handler. -/
structure ClearCacheBody where
  success : Bool
  message : String
  timestamp : Option Nat
  disabledFor : Option String
  error : Option String
  deriving DecidableEq, Repr

/-- The response of the handler. -/
structure ClearCacheResponse where
  statusCode : Nat
  body : ClearCacheBody
  deriving DecidableEq, Repr

/-- The delay `5 * 60 * 1000` passed to `setTimeout`, in milliseconds. -/
def overrideDelay : Nat := 5 * 60 * 1000

/-- The handler of `app.post('/api/clear-cache', ...)`, run at time `p.now`.
The `try` block clears the cache, sets the variable, schedules the callback
and responds; a throw of `clearRateLimitCache()` enters the `catch` block
before any of the later statements ran. -/
def clearCacheHandler (clear : ClearBehaviour) (p : Process) : ClearCacheResponse × Process :=
  match clear p.store with
  | (Completion.returned _, st) =>
    ({ statusCode := 200,
       body :=
        { success := true,
          message :=
            "Rate limit cache cleared successfully and rate limiting temporarily disabled",
          timestamp := some p.now,
          disabledFor := some "5 minutes",
          error := none } },
     { p with
       store := st
       DISABLE_RATE_LIMITING := some "true"
       timers := p.timers ++ [p.now + overrideDelay]
       trace := p.trace ++
        [(p.now, ServerEvent.clearRateLimitCache),
         (p.now, ServerEvent.setEnv "DISABLE_RATE_LIMITING" "true"),
         (p.now, ServerEvent.setTimeout overrideDelay),
         (p.now, ServerEvent.json true),
         (p.now, ServerEvent.consoleLog "🧹 Rate limit cache cleared via API call"),
         (p.now, ServerEvent.consoleLog "🚫 Rate limiting temporarily disabled for 5 minutes")] })
  | (Completion.thrown e, st) =>
    ({ statusCode := 500,
       body :=
        { success := false,
          message := "Failed to clear cache",
          timestamp := none,
          disabledFor := none,
          error := some e } },
     { p with
       store := st
       trace := p.trace ++
        [(p.now, ServerEvent.clearRateLimitCache),
         (p.now, ServerEvent.status 500),
         (p.now, ServerEvent.json false)] })

/-- The callback passed to `setTimeout`: it deletes the variable and logs. -/
def timerCallback (p : Process) : Process :=
  { p with
    DISABLE_RATE_LIMITING := none
    trace := p.trace ++
      [(p.now, ServerEvent.deleteEnv "DISABLE_RATE_LIMITING"),
       (p.now, ServerEvent.consoleLog "🔄 Rate limiting re-enabled after 5 minutes")] }

/-- Remove the first pending timer that is due at `now`, if there is one. -/
def takeDue (now : Nat) : List Nat → Option (List Nat)
  | [] => none
  | d :: ds =>
    if d ≤ now then some ds
    else (takeDue now ds).map fun rest => d :: rest

/-- The steps of the timed model of the process. -/
inductive Action where
  | post (clear : ClearBehaviour)
  | fire
  | wait (ms : Nat)

/-- One step.  `post` handles a `POST /api/clear-cache` at the current time.
`fire` runs the callback of a pending timer that is due.  `wait ms` lets `ms`
milliseconds pass; timers fire at their due time, so time cannot pass beyond
the due time of a pending timer.  A step that is not enabled gives `none`. -/
def step (p : Process) : Action → Option Process
  | Action.post clear => some (clearCacheHandler clear p).2
  | Action.fire =>
    match takeDue p.now p.timers with
    | none => none
    | some rest => some (timerCallback { p with timers := rest })
  | Action.wait ms =>
    if p.timers.all (fun d => decide (p.now + ms ≤ d)) then some { p with now := p.now + ms }
    else none

/-- A run: the steps of a schedule, in order. -/
def exec (p : Process) : List Action → Option Process
  | [] => some p
  | a :: as =>
    match step p a with
    | none => none
    | some q => exec q as

/-- The time of the most recent activation: the time of the last assignment
of the variable in the trace. -/
def Process.lastActivation (p : Process) : Option Nat :=
  (p.trace.filterMap fun te =>
    match te.2 with
    | ServerEvent.setEnv _ _ => some te.1
    | _ => none).getLast?

/-- A process that has just started at time `now`: the variable is not
defined and no timer is pending. -/
def Process.boot (now : Nat) (store : RateLimitStore) : Process :=
  { now := now, DISABLE_RATE_LIMITING := none, timers := [], store := store, trace := [] }

/-- A `clearRateLimitCache` that empties the store. -/
def clearOk : ClearBehaviour :=
  fun _ => (Completion.returned (), [])

/-- A `clearRateLimitCache` that throws and leaves the store as it is. -/
def clearFails : ClearBehaviour :=
  fun st => (Completion.thrown "store unavailable", st)

/-- Two activations one minute apart, then the passage of time up to the due
time of the first timer, which fires. -/
def reactivationSchedule : List Action :=
  [Action.post clearOk, Action.wait 60000, Action.post clearOk, Action.wait 240000, Action.fire]

/-- Invariant of the timed model: no pending timer is overdue, and while the
variable is defined the timer scheduled by the most recent activation is
still pending. -/
def Process.Inv (p : Process) : Prop :=
  (∀ d ∈ p.timers, p.now ≤ d) ∧
  (p.DISABLE_RATE_LIMITING ≠ none →
    ∃ ta, p.lastActivation = some ta ∧ ta + overrideDelay ∈ p.timers)

/-- The process one second after a single activation at time 0. -/
def oneSecondAfterActivation : Process :=
  { now := 1000
    DISABLE_RATE_LIMITING := some "true"
    timers := [300000]
    store := []
    trace :=
      [(0, ServerEvent.clearRateLimitCache),
       (0, ServerEvent.setEnv "DISABLE_RATE_LIMITING" "true"),
       (0, ServerEvent.setTimeout 300000),
       (0, ServerEvent.json true),
       (0, ServerEvent.consoleLog "🧹 Rate limit cache cleared via API call"),
       (0, ServerEvent.consoleLog "🚫 Rate limiting temporarily disabled for 5 minutes")] }

/-- A store with one window, near its limit. -/
def busyStore : RateLimitStore :=
  [{ policy := "api", key := "203.0.113.7", count := 99, windowStart := 0 }]

/-! ## The request pipeline of `server.js` -/

/-- The middlewares, routers and route handlers registered on `app` in
`server.js`, by the name they have there. -/
inductive Handler where
  | helmet
  | cors
  | morgan
  | apiLimiter
  | requestMonitoring
  | expressJson
  | expressUrlencoded
  | playerStatic
  | requestTimeout
  | health
  | clearCache
  | playerPage
  | authLimiter
  | authRoutes
  | uploadLimiter
  | authenticateToken
  | mediaRoutes
  | screenRoutes
  | playlistRoutes
  | assignmentRoutes
  | heartbeatLimiter
  | playerRoutes
  | dashboardLimiter
  | dashboardRoutes
  | monitoringRoutes
  | apiInfo
  | notFound
  | errorMonitoring
  | errorHandler
  deriving DecidableEq, Repr

/-- How a layer is registered: `app.use(path, ...)` matches every method and
every path that starts with the segments of `path`; `app.get(path, ...)` and
`app.post(path, ...)` match one method and the whole path. -/
inductive Mount where
  | use (path : List String)
  | route (method : String) (path : List String)
  deriving DecidableEq, Repr

/-- One registration on `app`: where it is mounted, its handlers in order,
and whether it is an error-handling middleware, which a request that raised
no error skips. -/
structure Layer where
  mount : Mount
  handlers : List Handler
  onError : Bool
  deriving DecidableEq, Repr

/-- The registrations of `server.js`, in source order.  A mount path is given
by its segments: `'/api/'` is `["api"]`, no path is `[]`. -/
def app : List Layer :=
  [ { mount := Mount.use [], handlers := [Handler.helmet], onError := false },
    { mount := Mount.use [], handlers := [Handler.cors], onError := false },
    { mount := Mount.use [], handlers := [Handler.morgan], onError := false },
    { mount := Mount.use ["api"], handlers := [Handler.apiLimiter], onError := false },
    { mount := Mount.use [], handlers := [Handler.requestMonitoring], onError := false },
    { mount := Mount.use [], handlers := [Handler.expressJson], onError := false },
    { mount := Mount.use [], handlers := [Handler.expressUrlencoded], onError := false },
    { mount := Mount.use ["player"], handlers := [Handler.playerStatic], onError := false },
    { mount := Mount.use [], handlers := [Handler.requestTimeout], onError := false },
    { mount := Mount.route "GET" ["health"], handlers := [Handler.health], onError := false },
    { mount := Mount.route "POST" ["api", "clear-cache"], handlers := [Handler.clearCache],
      onError := false },
    { mount := Mount.route "GET" ["player"], handlers := [Handler.playerPage],
      onError := false },
    { mount := Mount.use ["api", "auth"],
      handlers := [Handler.authLimiter, Handler.authRoutes], onError := false },
    { mount := Mount.use ["api", "media"],
      handlers := [Handler.uploadLimiter, Handler.authenticateToken, Handler.mediaRoutes],
      onError := false },
    { mount := Mount.use ["api", "screens"],
      handlers := [Handler.authenticateToken, Handler.screenRoutes], onError := false },
    { mount := Mount.use ["api", "playlists"],
      handlers := [Handler.authenticateToken, Handler.playlistRoutes], onError := false },
    { mount := Mount.use ["api", "assignments"],
      handlers := [Handler.authenticateToken, Handler.assignmentRoutes], onError := false },
    { mount := Mount.use ["api", "player"],
      handlers := [Handler.heartbeatLimiter, Handler.playerRoutes], onError := false },
    { mount := Mount.use ["api", "dashboard"],
      handlers := [Handler.dashboardLimiter, Handler.authenticateToken,
        Handler.dashboardRoutes],
      onError := false },
    { mount := Mount.use ["api", "monitoring"],
      handlers := [Handler.authenticateToken, Handler.monitoringRoutes], onError := false },
    { mount := Mount.route "GET" ["api"], handlers := [Handler.apiInfo], onError := false },
    { mount := Mount.use [], handlers := [Handler.notFound], onError := false },
    { mount := Mount.use [], handlers := [Handler.errorMonitoring], onError := true },
    { mount := Mount.use [], handlers := [Handler.errorHandler], onError := true } ]

/-- An incoming request as the router sees it: its method and the path of its
URL. -/
structure HttpRequest where
  method : String
  path : String
  deriving DecidableEq, Repr

/-- The pieces of a text between consecutive `/`, empty pieces included. -/
def splitSlash : List Char → List (List Char)
  | [] => [[]]
  | c :: cs =>
    if c = '/' then [] :: splitSlash cs
    else
      match splitSlash cs with
      | [] => [[c]]
      | w :: ws => (c :: w) :: ws

/-- The segments of a path: the pieces after the leading `/`, in lower case,
since Express matches paths without regard to case. -/
def segments (path : String) : List String :=
  ((splitSlash path.data).drop 1).map fun cs => String.mk (cs.map Char.toLower)

/-- The first list starts the second. -/
def startsWith : List String → List String → Bool
  | [], _ => true
  | _ :: _, [] => false
  | m :: ms, s :: ss => m == s && startsWith ms ss

/-- Whether a mount matches a request.  `use` matches on a segment boundary:
`/api/media` matches `/api/media`, `/api/media/` and `/api/media/7`, not
`/api/mediafiles`.  A route matches its method (`HEAD` is served by `GET`) and
the whole path, with or without a final `/`. -/
def Mount.accepts (method : String) (segs : List String) : Mount → Bool
  | Mount.use path => startsWith path segs
  | Mount.route m path =>
    (method == m || (m == "GET" && method == "HEAD")) &&
      (segs == path || segs == path ++ [""])

/-- The handlers of the layers that match, in registration order: the chain
a request that raises no error passes through while every handler calls
`next()`. -/
def chainOf (method : String) (segs : List String) : List Layer → List Handler
  | [] => []
  | l :: ls =>
    if l.mount.accepts method segs && !l.onError then l.handlers ++ chainOf method segs ls
    else chainOf method segs ls

/-- The chain of a request through `app`. -/
def chain (req : HttpRequest) : List Handler :=
  chainOf req.method (segments req.path) app

/-- The mounts the specification lists as protected by `authenticateToken`:
the second path segment under `/api`, the limiters specific to the route, and
the router. -/
def authMounts : List (String × List Handler × Handler) :=
  [ ("media", [Handler.uploadLimiter], Handler.mediaRoutes),
    ("screens", [], Handler.screenRoutes),
    ("playlists", [], Handler.playlistRoutes),
    ("assignments", [], Handler.assignmentRoutes),
    ("dashboard", [Handler.dashboardLimiter], Handler.dashboardRoutes),
    ("monitoring", [], Handler.monitoringRoutes) ]

/-- The handlers every request passes before the ones of its route. -/
def commonChain : List Handler :=
  [Handler.helmet, Handler.cors, Handler.morgan, Handler.apiLimiter,
    Handler.requestMonitoring, Handler.expressJson, Handler.expressUrlencoded,
    Handler.requestTimeout]

/-! ## Self-issued tokens (`services/authService`) -/

/-- The user a token is generated for: the fields `generateToken` reads. -/
structure User where
  id : String
  email : Option String
  deriving DecidableEq, Repr

/-- Modelled from the spec: the payload of a self-issued session token of
`services/authService` (not part of the sources at hand), the record
`{id, email, issuedAt, expiresAt}` the opaque string encodes. -/
structure TokenPayload where
  id : String
  email : Option String
  issuedAt : Nat
  expiresAt : Nat
  deriving DecidableEq, Repr

/-- Modelled from the spec: what the class `AuthService` of
`services/authService` (not part of the sources at hand) works with: the
service secret, the lifetime of a token, the keyed signature of a payload, and
the encoding of a signed payload as an opaque string with its decoding. -/
structure AuthService where
  secret : String
  lifetime : Nat
  sign : String → TokenPayload → String
  encode : TokenPayload → String → String
  decode : String → Option (TokenPayload × String)

/-- Modelled from the spec: `authService.generateToken(user)` of
`services/authService`, called at time `now`: a signed string encoding
`{id, email, issuedAt, expiresAt}`. -/
def AuthService.generateToken (auth : AuthService) (now : Nat) (user : User) : String :=
  let payload : TokenPayload :=
    { id := user.id, email := user.email, issuedAt := now, expiresAt := now + auth.lifetime }
  auth.encode payload (auth.sign auth.secret payload)

/-- Modelled from the spec: `authService.verifyToken(token)` of
`services/authService`, called at time `now`: the principal of the payload
when the token decodes, its signature verifies against the service secret and
`expiresAt` is in the future; `null` on any structural failure, signature
mismatch or expiry. -/
def AuthService.verifyToken (auth : AuthService) (now : Nat) (token : String) :
    Option Principal :=
  match auth.decode token with
  | none => none
  | some (payload, signature) =>
    if signature = auth.sign auth.secret payload ∧ now < payload.expiresAt then
      some { id := payload.id, email := payload.email, source := Source.selfIssued }
    else none

/-- The principal of a user. -/
def User.principal (user : User) : Principal :=
  { id := user.id, email := user.email, source := Source.selfIssued }

/-! ### A sample encoding -/

/-- A number in unary: that many `1`, closed by `0`. -/
def writeNat (n : Nat) : List Char :=
  List.replicate n '1' ++ ['0']

/-- Read a number in unary and return what follows it. -/
def readNat : List Char → Option (Nat × List Char)
  | [] => none
  | c :: cs =>
    if c = '0' then some (0, cs)
    else if c = '1' then (readNat cs).map fun r => (r.1 + 1, r.2)
    else none

/-- A text, preceded by its length. -/
def writeText (s : List Char) : List Char :=
  writeNat s.length ++ s

/-- Read a text preceded by its length and return what follows it. -/
def readText (cs : List Char) : Option (List Char × List Char) :=
  match readNat cs with
  | none => none
  | some (n, rest) => if n ≤ rest.length then some (rest.take n, rest.drop n) else none

/-- An optional text: `n` for none, `s` and the text otherwise. -/
def writeOptText : Option (List Char) → List Char
  | none => ['n']
  | some s => 's' :: writeText s

/-- Read an optional text and return what follows it. -/
def readOptText : List Char → Option (Option (List Char) × List Char)
  | [] => none
  | c :: cs =>
    if c = 'n' then some (none, cs)
    else if c = 's' then (readText cs).map fun r => (some r.1, r.2)
    else none

/-- The sample encoding of a signed payload. -/
def sampleEncode (payload : TokenPayload) (signature : String) : String :=
  String.mk
    (writeText payload.id.data ++ writeOptText (payload.email.map String.data) ++
      writeNat payload.issuedAt ++ writeNat payload.expiresAt ++ writeText signature.data)

/-- The decoding for the sample encoding; `none` on a text that is no
encoding. -/
def sampleDecode (token : String) : Option (TokenPayload × String) :=
  match readText token.data with
  | none => none
  | some (id, r1) =>
    match readOptText r1 with
    | none => none
    | some (email, r2) =>
      match readNat r2 with
      | none => none
      | some (issuedAt, r3) =>
        match readNat r3 with
        | none => none
        | some (expiresAt, r4) =>
          match readText r4 with
          | none => none
          | some (signature, r5) =>
            if r5 = [] then
              some ({ id := String.mk id, email := email.map String.mk, issuedAt := issuedAt,
                      expiresAt := expiresAt }, String.mk signature)
            else none

/-- A sample keyed signature: the secret followed by the fields signed. -/
def sampleSign (secret : String) (payload : TokenPayload) : String :=
  String.mk (writeText secret.data ++ writeText payload.id.data ++
    writeOptText (payload.email.map String.data) ++ writeNat payload.issuedAt ++
    writeNat payload.expiresAt)

/-- The user of the test script `test-setup.js`. -/
def testUser : User :=
  { id := "test-id", email := some "test@example.com" }

/-- A sample service: the sample signature and encoding, tokens valid for 24
hours (in seconds). -/
def sampleAuthService : AuthService :=
  { secret := "service-secret", lifetime := 86400, sign := sampleSign,
    encode := sampleEncode, decode := sampleDecode }

/-- The verifiers as the middleware sees them, at time `now`: the Token
Verifier of `auth`, which returns and never throws, beside a given External
Identity Verifier and downstream callback. -/
def AuthService.services (auth : AuthService) (now : Nat)
    (external : String → Completion (Option Principal)) (nx : Nat → Completion Unit) :
    Services :=
  { verifyToken := fun token => Completion.returned (auth.verifyToken now token),
    verifySupabaseToken := external,
    next := nx }

/-! ## The API client of the browser (`frontend/src/lib/api.js`) -/

/-- The fields of a parsed JSON body that the client reads. -/
structure JsonBody where
  error : Option String
  token : Option String
  deriving DecidableEq, Repr

/-- A `Response` of `fetch`: `ok`, `status`, the header `content-type`
(`none` for `null`) and how `response.json()` settles. -/
structure FetchResponse where
  ok : Bool
  status : Nat
  contentType : Option String
  json : Completion JsonBody
  deriving DecidableEq, Repr

/-- The `options` argument of `request`; a field that is not given is
`none`. -/
structure RequestOptions where
  method : Option String
  body : Option String
  headers : Option (List (String × String))
  deriving DecidableEq, Repr

/-- The `config` object handed to `fetch`. -/
structure RequestConfig where
  method : Option String
  body : Option String
  headers : List (String × String)
  deriving DecidableEq, Repr

/-- What `request` resolves to: the parsed body, or the response itself. -/
inductive RequestResult where
  | body (value : JsonBody)
  | response (value : FetchResponse)
  deriving DecidableEq, Repr

/-- The observable effects of the client. -/
inductive ClientEvent where
  | getItem (key : String)
  | setItem (key : String) (value : String)
  | removeItem (key : String)
  | fetch (url : String) (config : RequestConfig)
  | responseJson
  | consoleError (label : String) (error : String)
  deriving DecidableEq, Repr

/-- Where the client runs: `window` tells whether `typeof window` is not
`'undefined'` (a browser), `baseURL` is `API_BASE_URL`, and `fetch` is the
outcome of the call `fetch(url, config)`: a response, or a rejection. -/
structure Browser where
  window : Bool
  baseURL : String
  fetch : String → RequestConfig → Completion FetchResponse

/-- The state the client touches: the entries of `localStorage` and the
effects so far.  The calls on `localStorage` return and do not throw. -/
structure ClientState where
  localStorage : List (String × String)
  trace : List ClientEvent
  deriving DecidableEq, Repr

/-- The value stored under a key, `none` for `null`. -/
def storageGet (key : String) : List (String × String) → Option String
  | [] => none
  | (k, v) :: rest => if k = key then some v else storageGet key rest

/-- The entries without those of a key. -/
def storageRemove (key : String) : List (String × String) → List (String × String)
  | [] => []
  | (k, v) :: rest => if k = key then storageRemove key rest else (k, v) :: storageRemove key rest

/-- The entries with a key set to a value. -/
def storageSet (key value : String) (entries : List (String × String)) :
    List (String × String) :=
  storageRemove key entries ++ [(key, value)]

/-- A computation of the client. -/
def Cl (α : Type) : Type :=
  Browser → ClientState → Completion α × ClientState

/-- Return a value without effect. -/
def Cl.pure {α : Type} (a : α) : Cl α :=
  fun _ s => (Completion.returned a, s)

/-- Sequencing: a throw of the first computation skips the second. -/
def Cl.bind {α β : Type} (m : Cl α) (f : α → Cl β) : Cl β :=
  fun br s =>
    match m br s with
    | (Completion.returned a, s1) => f a br s1
    | (Completion.thrown e, s1) => (Completion.thrown e, s1)

instance : Monad Cl where
  pure := Cl.pure
  bind := Cl.bind

/-- The statement `throw error`. -/
def Cl.throw {α : Type} (error : String) : Cl α :=
  fun _ s => (Completion.thrown error, s)

/-- The statement `try { body } catch (error) { handler error }`. -/
def Cl.tryCatch {α : Type} (body : Cl α) (handler : String → Cl α) : Cl α :=
  fun br s =>
    match body br s with
    | (Completion.returned a, s1) => (Completion.returned a, s1)
    | (Completion.thrown e, s1) => handler e br s1

/-- The statement `try { body } finally { finalizer }`: the finalizer runs
however the body completes; the statement completes as the body did, unless
the finalizer throws. -/
def Cl.tryFinally {α : Type} (body : Cl α) (finalizer : Cl Unit) : Cl α :=
  fun br s =>
    match body br s with
    | (c, s1) =>
      match finalizer br s1 with
      | (Completion.returned _, s2) => (c, s2)
      | (Completion.thrown e, s2) => (Completion.thrown e, s2)

/-- The call `localStorage.getItem(key)`. -/
def localStorageGetItem (key : String) : Cl (Option String) :=
  fun _ s =>
    (Completion.returned (storageGet key s.localStorage),
      { s with trace := s.trace ++ [ClientEvent.getItem key] })

/-- The call `localStorage.setItem(key, value)`. -/
def localStorageSetItem (key value : String) : Cl Unit :=
  fun _ s =>
    (Completion.returned (),
      { localStorage := storageSet key value s.localStorage,
        trace := s.trace ++ [ClientEvent.setItem key value] })

/-- The call `localStorage.removeItem(key)`. -/
def localStorageRemoveItem (key : String) : Cl Unit :=
  fun _ s =>
    (Completion.returned (),
      { localStorage := storageRemove key s.localStorage,
        trace := s.trace ++ [ClientEvent.removeItem key] })

/-- The expression `await fetch(url, config)`. -/
def fetch (url : String) (config : RequestConfig) : Cl FetchResponse :=
  fun br s => (br.fetch url config, { s with trace := s.trace ++ [ClientEvent.fetch url config] })

/-- The expression `await response.json()`. -/
def responseJson (response : FetchResponse) : Cl JsonBody :=
  fun _ s => (response.json, { s with trace := s.trace ++ [ClientEvent.responseJson] })

/-- The call `console.error(label, error)` of the client. -/
def clientConsoleError (label : String) (error : String) : Cl Unit :=
  fun _ s =>
    (Completion.returned (), { s with trace := s.trace ++ [ClientEvent.consoleError label error] })

/-- The first text starts the second. -/
def startsWithChars : List Char → List Char → Bool
  | [], _ => true
  | _ :: _, [] => false
  | p :: ps, c :: cs => p == c && startsWithChars ps cs

/-- The method `String.prototype.includes` on the characters of two
strings. -/
def includesChars (search : List Char) : List Char → Bool
  | [] => search.isEmpty
  | c :: cs => startsWithChars search (c :: cs) || includesChars search cs

/-- The condition `contentType && contentType.includes('application/json')`
on the header `content-type` of a response. -/
def hasJsonContentType (response : FetchResponse) : Bool :=
  match response.contentType with
  | some contentType =>
    contentType != "" && includesChars "application/json".data contentType.data
  | none => false

/-- The assignment `headers[name] = value` on the entries of an object. -/
def setHeader (name value : String) : List (String × String) → List (String × String)
  | [] => [(name, value)]
  | (k, v) :: rest => if k = name then (k, value) :: rest else (k, v) :: setHeader name value rest

/-- The object literal that starts `request`: the default header
`Content-Type` merged with `options.headers`, then overwritten by the fields
of `options`, its `headers` included when given. -/
def initialConfig (options : RequestOptions) : RequestConfig :=
  { method := options.method,
    body := options.body,
    headers :=
      match options.headers with
      | some headers => headers
      | none => [("Content-Type", "application/json")] }

/-- The message of the error thrown for a response that is not `ok`:
`errorData.error`, or the status line when that is falsy. -/
def httpErrorMessage (errorData : JsonBody) (status : Nat) : String :=
  match errorData.error with
  | some message => if message = "" then "HTTP error! status: " ++ toString status else message
  | none => "HTTP error! status: " ++ toString status

/-- The method `ApiClient.request(endpoint, options)`. -/
def ApiClient.request (endpoint : String) (options : RequestOptions) : Cl RequestResult :=
  fun br =>
    (let url := br.baseURL ++ endpoint
     let config := initialConfig options
     do
       let config ←
         (if br.window then do
            let token ← localStorageGetItem "api_token"
            if truthy token then
              Cl.pure { config with
                headers := setHeader "Authorization" ("Bearer " ++ token.getD "") config.headers }
            else Cl.pure config
          else Cl.pure config)
       Cl.tryCatch
         (do
           let response ← fetch url config
           if !response.ok then do
             let errorData ← Cl.tryCatch (responseJson response)
               (fun _ => Cl.pure { error := none, token := none })
             Cl.throw (httpErrorMessage errorData response.status)
           else
             if hasJsonContentType response then do
               let value ← responseJson response
               Cl.pure (RequestResult.body value)
             else Cl.pure (RequestResult.response response))
         (fun error => do
           clientConsoleError "API request failed:" error
           Cl.throw error)) br

/-- The `options` of the request of `logout`: `{ method: 'POST' }`. -/
def logoutOptions : RequestOptions :=
  { method := some "POST", body := none, headers := none }

/-- The method `ApiClient.logout()`. -/
def ApiClient.logout : Cl Unit :=
  Cl.tryFinally
    (do
      let _ ← ApiClient.request "/api/auth/logout" logoutOptions
      Cl.pure ())
    (fun br =>
      (if br.window then localStorageRemoveItem "api_token" else Cl.pure ()) br)

/-- The `config` with which `logout` calls `fetch`, given the stored
entries. -/
def logoutConfig (br : Browser) (s : ClientState) : RequestConfig :=
  if br.window && truthy (storageGet "api_token" s.localStorage) then
    { method := some "POST", body := none,
      headers := [("Content-Type", "application/json"),
        ("Authorization", "Bearer " ++ (storageGet "api_token" s.localStorage).getD "")] }
  else
    { method := some "POST", body := none, headers := [("Content-Type", "application/json")] }

/-- A browser whose network is down: every `fetch` rejects. -/
def offlineBrowser : Browser :=
  { window := true, baseURL := "http://localhost:3001",
    fetch := fun _ _ => Completion.thrown "TypeError: Failed to fetch" }

/-- A browser whose server answers 401 with an error body. -/
def unauthorizedBrowser : Browser :=
  { window := true, baseURL := "http://localhost:3001",
    fetch := fun _ _ =>
      Completion.returned
        { ok := false, status := 401, contentType := some "application/json",
          json := Completion.returned { error := some "Invalid or expired token", token := none } } }

/-- A browser whose server answers 200 with a JSON body. -/
def onlineBrowser : Browser :=
  { window := true, baseURL := "http://localhost:3001",
    fetch := fun _ _ =>
      Completion.returned
        { ok := true, status := 200, contentType := some "application/json; charset=utf-8",
          json := Completion.returned { error := none, token := none } } }

/-- A client that holds a token. -/
def signedIn : ClientState :=
  { localStorage := [("theme", "dark"), ("api_token", "abc")], trace := [] }

/-! # Theorems -/

/-! ## Lemmas on reading the token -/

theorem splitSpace_word (w : List Char) (hw : ' ' ∉ w) : splitSpace w = [w] := by
  induction w with
  | nil => simp [splitSpace]
  | cons c cs ih =>
    have hc : c ≠ ' ' := fun h => hw (by simp [h])
    have hcs : ' ' ∉ cs := fun h => hw (by simp [h])
    simp [splitSpace, hc, ih hcs]

theorem splitSpace_word_space (w r : List Char) (hw : ' ' ∉ w) :
    splitSpace (w ++ ' ' :: r) = w :: splitSpace r := by
  induction w with
  | nil => simp [splitSpace]
  | cons c cs ih =>
    have hc : c ≠ ' ' := fun h => hw (by simp [h])
    have hcs : ' ' ∉ cs := fun h => hw (by simp [h])
    simp [splitSpace, hc, ih hcs]

/-- The first piece of a split that starts with a non-space is not empty. -/
theorem splitSpace_head_ne_nil (c : Char) (cs : List Char) (hc : c ≠ ' ') :
    ∃ w ws, splitSpace (c :: cs) = (c :: w) :: ws := by
  unfold splitSpace
  rw [if_neg hc]
  split
  · exact ⟨[], [], rfl⟩
  · rename_i w ws _
    exact ⟨w, ws, rfl⟩

/-- Every text is a space-free word followed by nothing or by a space. -/
theorem word_decomposition (l : List Char) :
    ∃ w rest, l = w ++ rest ∧ ' ' ∉ w ∧ (rest = [] ∨ ∃ r, rest = ' ' :: r) := by
  induction l with
  | nil => exact ⟨[], [], rfl, by simp, Or.inl rfl⟩
  | cons c cs ih =>
    by_cases hc : c = ' '
    · exact ⟨[], c :: cs, rfl, by simp, Or.inr ⟨cs, by rw [hc]⟩⟩
    · obtain ⟨w, rest, h1, h2, h3⟩ := ih
      refine ⟨c :: w, rest, by simp [h1], ?_, h3⟩
      simp only [List.mem_cons, not_or]
      exact ⟨fun h => hc h.symm, h2⟩

/-- The code finds no credential exactly in the headers of `NoCredential`. -/
theorem truthy_tokenOf_eq_false_iff (authorization : Option String) :
    truthy (tokenOf authorization) = false ↔ NoCredential authorization := by
  constructor
  · intro ht h hh
    subst hh
    obtain ⟨w, rest, h1, h2, h3⟩ := word_decomposition h.data
    refine ⟨w, rest, h1, h2, ?_⟩
    rcases h3 with h3 | ⟨r, h3⟩
    · exact Or.inl h3
    · right
      cases r with
      | nil => exact Or.inl h3
      | cons c r2 =>
        right
        by_cases hc : c = ' '
        · exact ⟨r2, by rw [h3, hc]⟩
        · exfalso
          have hne : h ≠ "" := by
            intro he
            rw [he, h3] at h1
            simp at h1
          obtain ⟨v, vs, hv⟩ := splitSpace_head_ne_nil c r2 hc
          have hs : splitSpace h.data = w :: (c :: v) :: vs := by
            rw [h1, h3, splitSpace_word_space w _ h2, hv]
          simp [tokenOf, hne, hs, truthy] at ht
          have := congrArg String.data ht
          simp at this
  · intro hn
    cases authorization with
    | none => simp [tokenOf, truthy]
    | some h =>
      obtain ⟨w, rest, h1, h2, h3⟩ := hn h rfl
      by_cases hne : h = ""
      · simp [tokenOf, hne, truthy]
      · rcases h3 with h3 | h3 | ⟨more, h3⟩
        · have hs : splitSpace h.data = [w] := by
            rw [h1, h3, List.append_nil, splitSpace_word w h2]
          simp [tokenOf, hne, hs, truthy]
        · have hs : splitSpace h.data = [w, []] := by
            rw [h1, h3, splitSpace_word_space w _ h2]
            simp [splitSpace]
          simp [tokenOf, hne, hs, truthy]
        · have hs : splitSpace h.data = w :: [] :: splitSpace more := by
            rw [h1, h3, splitSpace_word_space w _ h2]
            simp [splitSpace]
          simp [tokenOf, hne, hs, truthy]

/-- The scheme word is not examined: after any space-free word and one
space, a non-empty space-free text is read as the token. -/
theorem tokenOf_any_scheme (scheme tok : List Char) (hs : ' ' ∉ scheme) (ht : ' ' ∉ tok) :
    tokenOf (some (String.mk (scheme ++ ' ' :: tok))) = some (String.mk tok) := by
  have hne : String.mk (scheme ++ ' ' :: tok) ≠ "" := by
    intro he
    have := congrArg String.data he
    simp at this
  simp [tokenOf, hne, splitSpace_word_space scheme tok hs, splitSpace_word tok ht]

/-! ## Run equations

One equation per path through each middleware.  `t` is the token read from
the header; it is handed to the verifiers unchanged. -/

theorem run_auth_no_token (sv : Services) (req : Request)
    (h : truthy (tokenOf req.headers.authorization) = false) :
    runAuthenticateToken sv req =
      (Completion.returned (),
        { user := req.user, statusCode := 401, body := some missingToken,
          trace := [Event.status 401, Event.json "Access token required" "MISSING_TOKEN"] }) := by
  simp [runAuthenticateToken, authenticateToken, Mw.tryCatch, h, resStatusJson, Exchange.start,
    missingToken]

theorem run_auth_first (sv : Services) (req : Request) (t : String) (u : Principal)
    (ht : tokenOf req.headers.authorization = some t) (hne : t ≠ "")
    (hv : sv.verifyToken t = Completion.returned (some u)) :
    runAuthenticateToken sv req = acceptTail sv u [Event.verifyToken t] := by
  simp [runAuthenticateToken, authenticateToken, Mw.tryCatch, ht, truthy, hne, resStatusJson,
    Exchange.start, bind, Mw.bind, verifyToken, hv, Mw.pure, setUser, next, Exchange.nextCalls,
    consoleError, authServiceError, acceptTail]
  cases hn : sv.next 0 <;> simp [hn]

theorem run_auth_fallback (sv : Services) (req : Request) (t : String) (u : Principal)
    (ht : tokenOf req.headers.authorization = some t) (hne : t ≠ "")
    (hv : sv.verifyToken t = Completion.returned none)
    (hs : sv.verifySupabaseToken t = Completion.returned (some u)) :
    runAuthenticateToken sv req =
      acceptTail sv u [Event.verifyToken t, Event.verifySupabaseToken t] := by
  simp [runAuthenticateToken, authenticateToken, Mw.tryCatch, ht, truthy, hne, resStatusJson,
    Exchange.start, bind, Mw.bind, verifyToken, verifySupabaseToken, hv, hs, Mw.pure, setUser,
    next, Exchange.nextCalls, consoleError, authServiceError, acceptTail]
  cases hn : sv.next 0 <;> simp [hn]

theorem run_auth_both_reject (sv : Services) (req : Request) (t : String)
    (ht : tokenOf req.headers.authorization = some t) (hne : t ≠ "")
    (hv : sv.verifyToken t = Completion.returned none)
    (hs : sv.verifySupabaseToken t = Completion.returned none) :
    runAuthenticateToken sv req =
      (Completion.returned (),
        { user := req.user, statusCode := 401, body := some invalidToken,
          trace := [Event.verifyToken t, Event.verifySupabaseToken t, Event.status 401,
            Event.json "Invalid or expired token" "INVALID_TOKEN"] }) := by
  simp [runAuthenticateToken, authenticateToken, Mw.tryCatch, ht, truthy, hne, resStatusJson,
    Exchange.start, bind, Mw.bind, verifyToken, verifySupabaseToken, hv, hs, invalidToken]

theorem run_auth_first_throws (sv : Services) (req : Request) (t e : String)
    (ht : tokenOf req.headers.authorization = some t) (hne : t ≠ "")
    (hv : sv.verifyToken t = Completion.thrown e) :
    runAuthenticateToken sv req =
      (Completion.returned (),
        { user := req.user, statusCode := 500, body := some authServiceError,
          trace := [Event.verifyToken t, Event.consoleError "Authentication error:" e,
            Event.status 500,
            Event.json "Authentication service error" "AUTH_SERVICE_ERROR"] }) := by
  simp [runAuthenticateToken, authenticateToken, Mw.tryCatch, ht, truthy, hne, resStatusJson,
    Exchange.start, bind, Mw.bind, verifyToken, hv, consoleError, authServiceError]

theorem run_auth_fallback_throws (sv : Services) (req : Request) (t e : String)
    (ht : tokenOf req.headers.authorization = some t) (hne : t ≠ "")
    (hv : sv.verifyToken t = Completion.returned none)
    (hs : sv.verifySupabaseToken t = Completion.thrown e) :
    runAuthenticateToken sv req =
      (Completion.returned (),
        { user := req.user, statusCode := 500, body := some authServiceError,
          trace := [Event.verifyToken t, Event.verifySupabaseToken t,
            Event.consoleError "Authentication error:" e, Event.status 500,
            Event.json "Authentication service error" "AUTH_SERVICE_ERROR"] }) := by
  simp [runAuthenticateToken, authenticateToken, Mw.tryCatch, ht, truthy, hne, resStatusJson,
    Exchange.start, bind, Mw.bind, verifyToken, verifySupabaseToken, hv, hs, consoleError,
    authServiceError]

theorem run_optional_no_token (sv : Services) (req : Request)
    (h : truthy (tokenOf req.headers.authorization) = false) :
    runOptionalAuth sv req = proceedTail sv req.user [] := by
  simp [runOptionalAuth, optionalAuth, Mw.tryCatch, h, Exchange.start, bind, Mw.bind, Mw.pure,
    next, Exchange.nextCalls, consoleError, proceedTail]
  cases hn : sv.next 0 <;> simp [hn]

theorem run_optional_first (sv : Services) (req : Request) (t : String) (u : Principal)
    (ht : tokenOf req.headers.authorization = some t) (hne : t ≠ "")
    (hv : sv.verifyToken t = Completion.returned (some u)) :
    runOptionalAuth sv req = proceedTail sv (some u) [Event.verifyToken t] := by
  simp [runOptionalAuth, optionalAuth, Mw.tryCatch, ht, truthy, hne, Exchange.start, bind,
    Mw.bind, verifyToken, hv, Mw.pure, setUser, next, Exchange.nextCalls, consoleError,
    proceedTail]
  cases hn : sv.next 0 <;> simp [hn]

theorem run_optional_fallback (sv : Services) (req : Request) (t : String) (u : Principal)
    (ht : tokenOf req.headers.authorization = some t) (hne : t ≠ "")
    (hv : sv.verifyToken t = Completion.returned none)
    (hs : sv.verifySupabaseToken t = Completion.returned (some u)) :
    runOptionalAuth sv req =
      proceedTail sv (some u) [Event.verifyToken t, Event.verifySupabaseToken t] := by
  simp [runOptionalAuth, optionalAuth, Mw.tryCatch, ht, truthy, hne, Exchange.start, bind,
    Mw.bind, verifyToken, verifySupabaseToken, hv, hs, Mw.pure, setUser, next,
    Exchange.nextCalls, consoleError, proceedTail]
  cases hn : sv.next 0 <;> simp [hn]

theorem run_optional_both_reject (sv : Services) (req : Request) (t : String)
    (ht : tokenOf req.headers.authorization = some t) (hne : t ≠ "")
    (hv : sv.verifyToken t = Completion.returned none)
    (hs : sv.verifySupabaseToken t = Completion.returned none) :
    runOptionalAuth sv req =
      proceedTail sv req.user [Event.verifyToken t, Event.verifySupabaseToken t] := by
  simp [runOptionalAuth, optionalAuth, Mw.tryCatch, ht, truthy, hne, Exchange.start, bind,
    Mw.bind, verifyToken, verifySupabaseToken, hv, hs, Mw.pure, next, Exchange.nextCalls,
    consoleError, proceedTail]
  cases hn : sv.next 0 <;> simp [hn]

theorem run_optional_first_throws (sv : Services) (req : Request) (t e : String)
    (ht : tokenOf req.headers.authorization = some t) (hne : t ≠ "")
    (hv : sv.verifyToken t = Completion.thrown e) :
    runOptionalAuth sv req =
      (sv.next 0,
        { user := req.user, statusCode := 200, body := none,
          trace := [Event.verifyToken t, Event.consoleError "Optional auth error:" e,
            Event.next] }) := by
  simp [runOptionalAuth, optionalAuth, Mw.tryCatch, ht, truthy, hne, Exchange.start, bind,
    Mw.bind, verifyToken, hv, next, Exchange.nextCalls, consoleError]

theorem run_optional_fallback_throws (sv : Services) (req : Request) (t e : String)
    (ht : tokenOf req.headers.authorization = some t) (hne : t ≠ "")
    (hv : sv.verifyToken t = Completion.returned none)
    (hs : sv.verifySupabaseToken t = Completion.thrown e) :
    runOptionalAuth sv req =
      (sv.next 0,
        { user := req.user, statusCode := 200, body := none,
          trace := [Event.verifyToken t, Event.verifySupabaseToken t,
            Event.consoleError "Optional auth error:" e, Event.next] }) := by
  simp [runOptionalAuth, optionalAuth, Mw.tryCatch, ht, truthy, hne, Exchange.start, bind,
    Mw.bind, verifyToken, verifySupabaseToken, hv, hs, next, Exchange.nextCalls, consoleError]

/-! ## The claims on the authentication middleware -/

/-- C1, as stated, fails: the header `Basic abc` is not of the form
`Bearer <token>`, yet it is not treated as carrying no credential:
`authenticateToken` hands `abc` to the Token Verifier instead of answering
401 `MISSING_TOKEN`. -/
theorem C1_basic_scheme_counterexample :
    ¬ (∀ (sv : Services) (req : Request),
        (∀ h, req.headers.authorization = some h → isBearerForm h = false) →
        TreatedAsNoCredential sv req) := by
  intro hall
  have h := hall acceptingServices (requestWith (some "Basic abc")) (by
    intro h hh
    have hh2 : "Basic abc" = h := by simpa [requestWith] using hh
    subst hh2
    decide)
  exact absurd h.2.1 (by decide)

/-- What the code does on the header `Basic abc`: the scheme word is not
examined, `abc` is verified and the principal is attached. -/
theorem basic_scheme_is_verified :
    isBearerForm "Basic abc" = false ∧
    runAuthenticateToken acceptingServices (requestWith (some "Basic abc")) =
      (Completion.returned (),
        { user := some alice, statusCode := 200, body := none,
          trace := [Event.verifyToken "abc", Event.next] }) ∧
    (runOptionalAuth acceptingServices (requestWith (some "Basic abc"))).2.user = some alice := by
  decide

/-- C1 (amended): a request whose `Authorization` header is absent, or whose
text is a space-free word followed by nothing, by a single final space or by
two spaces in a row (so that it has no non-empty second space-separated
piece), is treated as carrying no credential: `authenticateToken` answers 401
`MISSING_TOKEN`, calls neither verifier and does not call `next`;
`optionalAuth` calls `next` with `req.user` untouched, sends nothing and calls
neither verifier. -/
theorem C1_no_credential_is_missing_token (sv : Services) (req : Request)
    (h : NoCredential req.headers.authorization) : TreatedAsNoCredential sv req := by
  have hf := (truthy_tokenOf_eq_false_iff _).2 h
  rw [TreatedAsNoCredential, run_auth_no_token sv req hf, run_optional_no_token sv req hf]
  cases hn : sv.next 0 <;>
    simp [proceedTail, hn, Exchange.nextCalls, Exchange.verifyTokenCalls,
      Exchange.verifySupabaseTokenCalls]

/-- C1 (amended), at the header `Bearer` followed by one space. -/
theorem C1_no_credential_is_missing_token_witness :
    NoCredential (requestWith (some "Bearer ")).headers.authorization ∧
    TreatedAsNoCredential rejectingServices (requestWith (some "Bearer ")) :=
  have hn : NoCredential (requestWith (some "Bearer ")).headers.authorization := by
    intro h hh
    have hh2 : "Bearer " = h := by simpa [requestWith] using hh
    subst hh2
    exact ⟨"Bearer".data, [' '], rfl, by decide, Or.inr (Or.inl rfl)⟩
  ⟨hn, C1_no_credential_is_missing_token rejectingServices (requestWith (some "Bearer ")) hn⟩

/-- When the request carries a token `t` and the Token Verifier returns a
principal `u` for it, `authenticateToken` sets `req.user` to `u`, calls
`next` exactly once and never calls the External Identity Verifier; its
effects up to and including the call of `next` are the verification and that
call, and when `next` returns nothing follows and no response is sent.
`optionalAuth` likewise attaches `u`, calls `next`, sends no response and
never calls the External Identity Verifier. -/
theorem token_verifier_principal_accepted (sv : Services) (req : Request) (t : String)
    (u : Principal) (ht : tokenOf req.headers.authorization = some t) (hne : t ≠ "")
    (hv : sv.verifyToken t = Completion.returned (some u)) :
    (runAuthenticateToken sv req).2.user = some u ∧
    (runAuthenticateToken sv req).2.nextCalls = 1 ∧
    (runAuthenticateToken sv req).2.verifySupabaseTokenCalls = [] ∧
    (runAuthenticateToken sv req).2.verifyTokenCalls = [t] ∧
    (∃ rest, (runAuthenticateToken sv req).2.trace = [Event.verifyToken t, Event.next] ++ rest ∧
      (sv.next 0 = Completion.returned () → rest = [])) ∧
    (sv.next 0 = Completion.returned () →
      runAuthenticateToken sv req =
        (Completion.returned (),
          { user := some u, statusCode := 200, body := none,
            trace := [Event.verifyToken t, Event.next] })) ∧
    (runOptionalAuth sv req).2.user = some u ∧
    (runOptionalAuth sv req).2.verifySupabaseTokenCalls = [] ∧
    (runOptionalAuth sv req).2.verifyTokenCalls = [t] ∧
    1 ≤ (runOptionalAuth sv req).2.nextCalls ∧
    (runOptionalAuth sv req).2.body = none ∧
    (runOptionalAuth sv req).2.statusCode = 200 := by
  rw [run_auth_first sv req t u ht hne hv, run_optional_first sv req t u ht hne hv]
  cases hn : sv.next 0 <;>
    simp [acceptTail, proceedTail, hn, Exchange.nextCalls, Exchange.verifyTokenCalls,
      Exchange.verifySupabaseTokenCalls]

/-- The header `Bearer abc`, accepted for `alice` by the Token Verifier, with
a `next` that returns. -/
theorem token_verifier_principal_accepted_example :
    tokenOf (requestWith (some "Bearer abc")).headers.authorization = some "abc" ∧
    acceptingServices.verifyToken "abc" = Completion.returned (some alice) ∧
    (runAuthenticateToken acceptingServices (requestWith (some "Bearer abc"))).2.user
      = some alice ∧
    (runAuthenticateToken acceptingServices
      (requestWith (some "Bearer abc"))).2.verifySupabaseTokenCalls = [] :=
  have h := token_verifier_principal_accepted acceptingServices
    (requestWith (some "Bearer abc")) "abc" alice (by decide) (by decide) rfl
  ⟨by decide, rfl, h.1, h.2.2.1⟩

/-- C2 fails when the downstream callback `next` throws: on the header
`Bearer abc`, with a Token Verifier that returns `alice` for `abc`,
`authenticateToken` sets `req.user` to `alice`, calls `next` once and never
calls the External Identity Verifier, but the throw of `next` is caught by
its `catch` block, which sends 500 `AUTH_SERVICE_ERROR`: a response is sent
for a request that was accepted. -/
theorem C2_response_sent_when_next_throws :
    tokenOf (requestWith (some "Bearer abc")).headers.authorization = some "abc" ∧
    throwingNext.verifyToken "abc" = Completion.returned (some alice) ∧
    runAuthenticateToken throwingNext (requestWith (some "Bearer abc")) =
      (Completion.returned (),
        { user := some alice, statusCode := 500, body := some authServiceError,
          trace := [Event.verifyToken "abc", Event.next,
            Event.consoleError "Authentication error:" "downstream failure",
            Event.status 500,
            Event.json "Authentication service error" "AUTH_SERVICE_ERROR"] }) ∧
    (runAuthenticateToken throwingNext
      (requestWith (some "Bearer abc"))).2.verifySupabaseTokenCalls = [] ∧
    (runAuthenticateToken throwingNext (requestWith (some "Bearer abc"))).2.nextCalls = 1 := by
  decide

/-- C3: when the request carries a token `t` that both verifiers reject,
`authenticateToken` answers 401 `INVALID_TOKEN`, leaves `req.user` as it was
and does not call `next`; `optionalAuth` calls `next`, leaves `req.user` as
it was and sends no response. -/
theorem C3_both_reject_invalid_token (sv : Services) (req : Request) (t : String)
    (ht : tokenOf req.headers.authorization = some t) (hne : t ≠ "")
    (hv : sv.verifyToken t = Completion.returned none)
    (hs : sv.verifySupabaseToken t = Completion.returned none) :
    (runAuthenticateToken sv req).1 = Completion.returned () ∧
    (runAuthenticateToken sv req).2.statusCode = 401 ∧
    (runAuthenticateToken sv req).2.body = some invalidToken ∧
    (runAuthenticateToken sv req).2.user = req.user ∧
    (runAuthenticateToken sv req).2.nextCalls = 0 ∧
    1 ≤ (runOptionalAuth sv req).2.nextCalls ∧
    (sv.next 0 = Completion.returned () →
      (runOptionalAuth sv req).2.nextCalls = 1 ∧
      (runOptionalAuth sv req).1 = Completion.returned ()) ∧
    (runOptionalAuth sv req).2.user = req.user ∧
    (runOptionalAuth sv req).2.body = none ∧
    (runOptionalAuth sv req).2.statusCode = 200 ∧
    (∀ e ∈ (runOptionalAuth sv req).2.trace,
      (∀ c, e ≠ Event.status c) ∧ (∀ m c, e ≠ Event.json m c)) := by
  rw [run_auth_both_reject sv req t ht hne hv hs, run_optional_both_reject sv req t ht hne hv hs]
  cases hn : sv.next 0 <;> simp [proceedTail, hn, Exchange.nextCalls]

/-- C3 at the header `Bearer abc`, rejected by both verifiers. -/
theorem C3_both_reject_invalid_token_witness :
    tokenOf (requestWith (some "Bearer abc")).headers.authorization = some "abc" ∧
    (runAuthenticateToken rejectingServices (requestWith (some "Bearer abc"))).2.body
      = some invalidToken ∧
    (runOptionalAuth rejectingServices (requestWith (some "Bearer abc"))).2.user = none :=
  have h := C3_both_reject_invalid_token rejectingServices
    (requestWith (some "Bearer abc")) "abc" (by decide) (by decide) rfl rfl
  ⟨by decide, h.2.2.1, h.2.2.2.2.2.2.2.1⟩

/-- C4: when the request carries a token `t` that the Token Verifier rejects,
both middlewares call the External Identity Verifier exactly once, with `t`,
right after the Token Verifier and before any call of `next` or any response;
and when it returns a principal `u`, `req.user` is `u` and the request
proceeds: `next` is called, and `authenticateToken` sends no response when
`next` returns. -/
theorem C4_fallback_called_once (sv : Services) (req : Request) (t : String)
    (ht : tokenOf req.headers.authorization = some t) (hne : t ≠ "")
    (hv : sv.verifyToken t = Completion.returned none) :
    (runAuthenticateToken sv req).2.verifySupabaseTokenCalls = [t] ∧
    (∃ rest, (runAuthenticateToken sv req).2.trace =
      [Event.verifyToken t, Event.verifySupabaseToken t] ++ rest) ∧
    (runOptionalAuth sv req).2.verifySupabaseTokenCalls = [t] ∧
    (∃ rest, (runOptionalAuth sv req).2.trace =
      [Event.verifyToken t, Event.verifySupabaseToken t] ++ rest) ∧
    (∀ u, sv.verifySupabaseToken t = Completion.returned (some u) →
      (runAuthenticateToken sv req).2.user = some u ∧
      (runAuthenticateToken sv req).2.nextCalls = 1 ∧
      (sv.next 0 = Completion.returned () →
        runAuthenticateToken sv req =
          (Completion.returned (),
            { user := some u, statusCode := 200, body := none,
              trace := [Event.verifyToken t, Event.verifySupabaseToken t, Event.next] })) ∧
      (runOptionalAuth sv req).2.user = some u ∧
      1 ≤ (runOptionalAuth sv req).2.nextCalls ∧
      (runOptionalAuth sv req).2.body = none ∧
      (runOptionalAuth sv req).2.statusCode = 200) := by
  cases hs : sv.verifySupabaseToken t with
  | returned r =>
    cases r with
    | none =>
      rw [run_auth_both_reject sv req t ht hne hv hs,
        run_optional_both_reject sv req t ht hne hv hs]
      cases hn : sv.next 0 <;>
        simp [proceedTail, hn, Exchange.verifySupabaseTokenCalls]
    | some u =>
      rw [run_auth_fallback sv req t u ht hne hv hs,
        run_optional_fallback sv req t u ht hne hv hs]
      cases hn : sv.next 0 <;>
        simp [acceptTail, proceedTail, hn, Exchange.verifySupabaseTokenCalls,
          Exchange.nextCalls]
  | thrown e =>
    rw [run_auth_fallback_throws sv req t e ht hne hv hs,
      run_optional_fallback_throws sv req t e ht hne hv hs]
    simp [Exchange.verifySupabaseTokenCalls]

/-- C4 at the header `Bearer abc`, rejected by the Token Verifier and
accepted for `alice` by the External Identity Verifier. -/
theorem C4_fallback_called_once_witness :
    tokenOf (requestWith (some "Bearer abc")).headers.authorization = some "abc" ∧
    fallbackServices.verifyToken "abc" = Completion.returned none ∧
    (runAuthenticateToken fallbackServices
      (requestWith (some "Bearer abc"))).2.verifySupabaseTokenCalls = ["abc"] ∧
    (runAuthenticateToken fallbackServices (requestWith (some "Bearer abc"))).2.user
      = some alice :=
  have h := C4_fallback_called_once fallbackServices
    (requestWith (some "Bearer abc")) "abc" (by decide) (by decide) rfl
  ⟨by decide, rfl, h.1, (h.2.2.2.2 alice rfl).1⟩

/-- C5: when the request carries a token `t` and a verifier throws during
resolution (the Token Verifier, or the External Identity Verifier after the
Token Verifier returned none), `authenticateToken` completes normally, answers
500 `AUTH_SERVICE_ERROR` (not `INVALID_TOKEN`), does not call `next` and
leaves `req.user` as it was. -/
theorem C5_verifier_fault_is_service_error (sv : Services) (req : Request) (t e : String)
    (ht : tokenOf req.headers.authorization = some t) (hne : t ≠ "")
    (hf : sv.verifyToken t = Completion.thrown e ∨
      (sv.verifyToken t = Completion.returned none ∧
        sv.verifySupabaseToken t = Completion.thrown e)) :
    (runAuthenticateToken sv req).1 = Completion.returned () ∧
    (runAuthenticateToken sv req).2.statusCode = 500 ∧
    (runAuthenticateToken sv req).2.body = some authServiceError ∧
    (runAuthenticateToken sv req).2.body ≠ some invalidToken ∧
    (runAuthenticateToken sv req).2.nextCalls = 0 ∧
    (runAuthenticateToken sv req).2.user = req.user := by
  rcases hf with hv | ⟨hv, hs⟩
  · rw [run_auth_first_throws sv req t e ht hne hv]
    simp [Exchange.nextCalls, authServiceError, invalidToken]
  · rw [run_auth_fallback_throws sv req t e ht hne hv hs]
    simp [Exchange.nextCalls, authServiceError, invalidToken]

/-- C5 at the header `Bearer abc` with a Token Verifier that throws. -/
theorem C5_verifier_fault_is_service_error_witness :
    tokenOf (requestWith (some "Bearer abc")).headers.authorization = some "abc" ∧
    faultyServices.verifyToken "abc" = Completion.thrown "secret unavailable" ∧
    (runAuthenticateToken faultyServices (requestWith (some "Bearer abc"))).2.statusCode
      = 500 ∧
    (runAuthenticateToken faultyServices (requestWith (some "Bearer abc"))).2.body
      = some authServiceError :=
  have h := C5_verifier_fault_is_service_error faultyServices
    (requestWith (some "Bearer abc")) "abc" "secret unavailable" (by decide) (by decide)
    (Or.inl rfl)
  ⟨by decide, rfl, h.2.1, h.2.2.1⟩

/-- C6: for every request and every behaviour of the two verifiers and of
`next`, `optionalAuth` sends no response (no body, status code untouched, no
`res.status` or `res.json` among its effects) and calls `next`: once, and
completing normally, when `next` returns; and `req.user` is the principal of
the resolution when there is one and is left as it was when resolution is
absent, fails or throws. -/
theorem C6_optional_never_rejects (sv : Services) (req : Request) :
    (runOptionalAuth sv req).2.body = none ∧
    (runOptionalAuth sv req).2.statusCode = 200 ∧
    (∀ e ∈ (runOptionalAuth sv req).2.trace,
      (∀ c, e ≠ Event.status c) ∧ (∀ m c, e ≠ Event.json m c)) ∧
    1 ≤ (runOptionalAuth sv req).2.nextCalls ∧
    (runOptionalAuth sv req).2.nextCalls ≤ 2 ∧
    (sv.next 0 = Completion.returned () →
      (runOptionalAuth sv req).2.nextCalls = 1 ∧
      (runOptionalAuth sv req).1 = Completion.returned ()) ∧
    (runOptionalAuth sv req).2.user =
      (match resolution sv req.headers.authorization with
        | some u => some u
        | none => req.user) := by
  cases ht : tokenOf req.headers.authorization with
  | none =>
    have hf : truthy (tokenOf req.headers.authorization) = false := by simp [ht, truthy]
    rw [run_optional_no_token sv req hf]
    cases hn : sv.next 0 <;> simp [proceedTail, hn, Exchange.nextCalls, resolution, ht]
  | some t =>
    by_cases hne : t = ""
    · have hf : truthy (tokenOf req.headers.authorization) = false := by
        simp [ht, truthy, hne]
      rw [run_optional_no_token sv req hf]
      cases hn : sv.next 0 <;> simp [proceedTail, hn, Exchange.nextCalls, resolution, ht, hne]
    · cases hv : sv.verifyToken t with
      | thrown e =>
        rw [run_optional_first_throws sv req t e ht hne hv]
        cases hn : sv.next 0 <;> simp [Exchange.nextCalls, resolution, ht, hne, hv]
      | returned r =>
        cases r with
        | some u =>
          rw [run_optional_first sv req t u ht hne hv]
          cases hn : sv.next 0 <;>
            simp [proceedTail, hn, Exchange.nextCalls, resolution, ht, hne, hv]
        | none =>
          cases hs : sv.verifySupabaseToken t with
          | thrown e =>
            rw [run_optional_fallback_throws sv req t e ht hne hv hs]
            cases hn : sv.next 0 <;> simp [Exchange.nextCalls, resolution, ht, hne, hv, hs]
          | returned r2 =>
            cases r2 with
            | some u =>
              rw [run_optional_fallback sv req t u ht hne hv hs]
              cases hn : sv.next 0 <;>
                simp [proceedTail, hn, Exchange.nextCalls, resolution, ht, hne, hv, hs]
            | none =>
              rw [run_optional_both_reject sv req t ht hne hv hs]
              cases hn : sv.next 0 <;>
                simp [proceedTail, hn, Exchange.nextCalls, resolution, ht, hne, hv, hs]

/-- When the downstream callback `next` returns, one run ends in exactly one
of the outcomes of the specification: for `authenticateToken` on a request
that arrives without `req.user`, the principal is attached or the request is
rejected, never both; for `optionalAuth`, the principal is attached or the
request proceeds unauthenticated, never both, and it is never rejected. -/
theorem outcome_trichotomy_when_next_returns (sv : Services) (req : Request)
    (hu : req.user = none) (hn : sv.next 0 = Completion.returned ()) :
    (Attached sv req (runAuthenticateToken sv req) ∨ Rejected (runAuthenticateToken sv req)) ∧
    ¬ (Attached sv req (runAuthenticateToken sv req) ∧ Rejected (runAuthenticateToken sv req)) ∧
    ¬ Unauthenticated (runAuthenticateToken sv req) ∧
    (Attached sv req (runOptionalAuth sv req) ∨ Unauthenticated (runOptionalAuth sv req)) ∧
    ¬ (Attached sv req (runOptionalAuth sv req) ∧ Unauthenticated (runOptionalAuth sv req)) ∧
    ¬ Rejected (runOptionalAuth sv req) := by
  cases ht : tokenOf req.headers.authorization with
  | none =>
    have hf : truthy (tokenOf req.headers.authorization) = false := by simp [ht, truthy]
    rw [run_auth_no_token sv req hf, run_optional_no_token sv req hf]
    simp [Attached, Rejected, Unauthenticated, proceedTail, hn, hu, Exchange.nextCalls]
  | some t =>
    by_cases hne : t = ""
    · have hf : truthy (tokenOf req.headers.authorization) = false := by
        simp [ht, truthy, hne]
      rw [run_auth_no_token sv req hf, run_optional_no_token sv req hf]
      simp [Attached, Rejected, Unauthenticated, proceedTail, hn, hu, Exchange.nextCalls]
    · cases hv : sv.verifyToken t with
      | thrown e =>
        rw [run_auth_first_throws sv req t e ht hne hv,
          run_optional_first_throws sv req t e ht hne hv]
        simp [Attached, Rejected, Unauthenticated, hn, hu, Exchange.nextCalls]
      | returned r =>
        cases r with
        | some u =>
          rw [run_auth_first sv req t u ht hne hv, run_optional_first sv req t u ht hne hv]
          simp [Attached, Rejected, Unauthenticated, acceptTail, proceedTail, hn,
            Exchange.nextCalls, resolution, ht, hne, hv]
        | none =>
          cases hs : sv.verifySupabaseToken t with
          | thrown e =>
            rw [run_auth_fallback_throws sv req t e ht hne hv hs,
              run_optional_fallback_throws sv req t e ht hne hv hs]
            simp [Attached, Rejected, Unauthenticated, hn, hu, Exchange.nextCalls]
          | returned r2 =>
            cases r2 with
            | some u =>
              rw [run_auth_fallback sv req t u ht hne hv hs,
                run_optional_fallback sv req t u ht hne hv hs]
              simp [Attached, Rejected, Unauthenticated, acceptTail, proceedTail, hn,
                Exchange.nextCalls, resolution, ht, hne, hv, hs]
            | none =>
              rw [run_auth_both_reject sv req t ht hne hv hs,
                run_optional_both_reject sv req t ht hne hv hs]
              simp [Attached, Rejected, Unauthenticated, proceedTail, hn, hu,
                Exchange.nextCalls]

/-- C7 fails when the downstream callback `next` throws: on the header
`Bearer abc`, accepted by the Token Verifier, `authenticateToken` attaches the
principal, calls `next` and then also sends 500 `AUTH_SERVICE_ERROR` from its
`catch` block, so the run is in none of the three outcomes; and the `catch`
block of `optionalAuth` calls `next` a second time. -/
theorem C7_throwing_next_breaks_outcomes :
    (runAuthenticateToken throwingNext (requestWith (some "Bearer abc"))).2.user = some alice ∧
    (runAuthenticateToken throwingNext (requestWith (some "Bearer abc"))).2.nextCalls = 1 ∧
    (runAuthenticateToken throwingNext (requestWith (some "Bearer abc"))).2.statusCode = 500 ∧
    (runAuthenticateToken throwingNext (requestWith (some "Bearer abc"))).2.body
      = some authServiceError ∧
    ¬ Attached throwingNext (requestWith (some "Bearer abc"))
      (runAuthenticateToken throwingNext (requestWith (some "Bearer abc"))) ∧
    ¬ Rejected (runAuthenticateToken throwingNext (requestWith (some "Bearer abc"))) ∧
    ¬ Unauthenticated (runAuthenticateToken throwingNext (requestWith (some "Bearer abc"))) ∧
    (runOptionalAuth throwingNext (requestWith (some "Bearer abc"))).2.nextCalls = 2 ∧
    (runOptionalAuth throwingNext (requestWith (some "Bearer abc"))).2.trace =
      [Event.verifyToken "abc", Event.next,
        Event.consoleError "Optional auth error:" "downstream failure", Event.next] := by
  simp only [Attached, Rejected, Unauthenticated]
  decide

/-! ## The claims on the override -/

theorem lastActivation_append_activation (tr : List (Nat × ServerEvent)) (now : Nat)
    (p : Process)
    (h : p.trace = tr ++
      [(now, ServerEvent.clearRateLimitCache),
       (now, ServerEvent.setEnv "DISABLE_RATE_LIMITING" "true"),
       (now, ServerEvent.setTimeout overrideDelay),
       (now, ServerEvent.json true),
       (now, ServerEvent.consoleLog "🧹 Rate limit cache cleared via API call"),
       (now, ServerEvent.consoleLog "🚫 Rate limiting temporarily disabled for 5 minutes")]) :
    p.lastActivation = some now := by
  simp [Process.lastActivation, h, List.filterMap_append, List.filterMap_cons]

theorem lastActivation_handler_ok (clear : ClearBehaviour) (p : Process) (st : RateLimitStore)
    (h : clear p.store = (Completion.returned (), st)) :
    (clearCacheHandler clear p).2.lastActivation = some p.now := by
  apply lastActivation_append_activation p.trace
  simp [clearCacheHandler, h]

theorem lastActivation_handler_fails (clear : ClearBehaviour) (p : Process) (e : String)
    (st : RateLimitStore) (h : clear p.store = (Completion.thrown e, st)) :
    (clearCacheHandler clear p).2.lastActivation = p.lastActivation := by
  simp [Process.lastActivation, clearCacheHandler, h, List.filterMap_append,
    List.filterMap_cons]

theorem takeDue_subset (now : Nat) (ts rest : List Nat) (h : takeDue now ts = some rest) :
    ∀ d ∈ rest, d ∈ ts := by
  induction ts generalizing rest with
  | nil => simp [takeDue] at h
  | cons t ts ih =>
    unfold takeDue at h
    split at h
    · intro d hd
      have : ts = rest := by simpa using h
      subst this
      exact List.mem_cons_of_mem _ hd
    · cases hr : takeDue now ts with
      | none => simp [hr] at h
      | some r =>
        simp [hr] at h
        subst h
        intro d hd
        rcases List.mem_cons.1 hd with hd | hd
        · simp [hd]
        · exact List.mem_cons_of_mem _ (ih r hr d hd)

/-- Every step preserves the invariant. -/
theorem inv_step (p q : Process) (a : Action) (hp : p.Inv) (hs : step p a = some q) :
    q.Inv := by
  obtain ⟨hdue, hact⟩ := hp
  cases a with
  | post clear =>
    simp only [step, Option.some.injEq] at hs
    subst hs
    rcases hc : clear p.store with ⟨c, st⟩
    cases c with
    | returned v =>
      cases v
      refine ⟨?_, ?_⟩
      · intro d hd
        simp [clearCacheHandler, hc] at hd ⊢
        rcases hd with hd | hd
        · exact hdue d hd
        · omega
      · intro _
        refine ⟨p.now, lastActivation_handler_ok clear p st hc, ?_⟩
        simp [clearCacheHandler, hc]
    | thrown e =>
      refine ⟨?_, ?_⟩
      · intro d hd
        simp [clearCacheHandler, hc] at hd ⊢
        exact hdue d hd
      · intro hset
        rw [lastActivation_handler_fails clear p e st hc]
        simp [clearCacheHandler, hc] at hset ⊢
        exact hact hset
  | fire =>
    simp only [step] at hs
    cases ht : takeDue p.now p.timers with
    | none => simp [ht] at hs
    | some rest =>
      simp [ht] at hs
      subst hs
      refine ⟨?_, ?_⟩
      · intro d hd
        simp [timerCallback] at hd ⊢
        exact hdue d (takeDue_subset _ _ _ ht d hd)
      · intro hset
        simp [timerCallback] at hset
  | wait ms =>
    simp only [step] at hs
    split at hs
    · rename_i hall
      simp only [Option.some.injEq] at hs
      subst hs
      simp only [List.all_eq_true, decide_eq_true_eq] at hall
      refine ⟨fun d hd => hall d hd, ?_⟩
      intro hset
      exact hact hset
    · simp at hs

/-- Every run preserves the invariant. -/
theorem inv_exec (schedule : List Action) (p q : Process) (hp : p.Inv)
    (hr : exec p schedule = some q) : q.Inv := by
  induction schedule generalizing p with
  | nil =>
    simp [exec] at hr
    subst hr
    exact hp
  | cons a as ih =>
    simp only [exec] at hr
    cases hs : step p a with
    | none => simp [hs] at hr
    | some r =>
      simp [hs] at hr
      exact ih r (inv_step p r a hp hs) hr

/-- In a run from a state without override, a defined variable comes with an
activation at most 5 minutes old. -/
theorem override_bound_of_run (p0 : Process) (schedule : List Action) (p : Process)
    (h0 : p0.DISABLE_RATE_LIMITING = none) (hd : ∀ d ∈ p0.timers, p0.now ≤ d)
    (hrun : exec p0 schedule = some p) (hset : p.DISABLE_RATE_LIMITING ≠ none) :
    ∃ ta, p.lastActivation = some ta ∧ p.now ≤ ta + 300000 := by
  have hinv0 : p0.Inv := ⟨hd, fun h => absurd h0 h⟩
  obtain ⟨hdue, hact⟩ := inv_exec schedule p0 p hinv0 hrun
  obtain ⟨ta, hta, hmem⟩ := hact hset
  exact ⟨ta, hta, by simpa [overrideDelay] using hdue _ hmem⟩

/-- C8: the handler of `POST /api/clear-cache`, run at time `p.now`, first
calls `clearRateLimitCache`.  When that call returns, the store is the one it
left, the variable `DISABLE_RATE_LIMITING` is `'true'`, a deactivation is
scheduled for `p.now` plus 5 minutes (300000 ms) after the timers already
pending, and the handler responds with `success = true`, the call of
`clearRateLimitCache` coming before the response.  When that call throws, the
handler responds 500 with `success = false`, and the variable and the pending
timers are as before. -/
theorem C8_activation_clears_and_schedules (clear : ClearBehaviour) (p : Process) :
    (∀ st, clear p.store = (Completion.returned (), st) →
      (clearCacheHandler clear p).1.statusCode = 200 ∧
      (clearCacheHandler clear p).1.body.success = true ∧
      (clearCacheHandler clear p).2.store = st ∧
      (clearCacheHandler clear p).2.DISABLE_RATE_LIMITING = some "true" ∧
      (clearCacheHandler clear p).2.timers = p.timers ++ [p.now + 300000] ∧
      (clearCacheHandler clear p).2.now = p.now ∧
      (clearCacheHandler clear p).2.lastActivation = some p.now ∧
      (clearCacheHandler clear p).2.trace = p.trace ++
        [(p.now, ServerEvent.clearRateLimitCache),
         (p.now, ServerEvent.setEnv "DISABLE_RATE_LIMITING" "true"),
         (p.now, ServerEvent.setTimeout 300000),
         (p.now, ServerEvent.json true),
         (p.now, ServerEvent.consoleLog "🧹 Rate limit cache cleared via API call"),
         (p.now, ServerEvent.consoleLog
           "🚫 Rate limiting temporarily disabled for 5 minutes")]) ∧
    (∀ e st, clear p.store = (Completion.thrown e, st) →
      (clearCacheHandler clear p).1.statusCode = 500 ∧
      (clearCacheHandler clear p).1.body.success = false ∧
      (clearCacheHandler clear p).1.body.error = some e ∧
      (clearCacheHandler clear p).2.DISABLE_RATE_LIMITING = p.DISABLE_RATE_LIMITING ∧
      (clearCacheHandler clear p).2.timers = p.timers ∧
      (clearCacheHandler clear p).2.lastActivation = p.lastActivation ∧
      (clearCacheHandler clear p).2.trace = p.trace ++
        [(p.now, ServerEvent.clearRateLimitCache),
         (p.now, ServerEvent.status 500),
         (p.now, ServerEvent.json false)]) := by
  constructor
  · intro st h
    have hl := lastActivation_handler_ok clear p st h
    simp [clearCacheHandler, h, overrideDelay] at hl ⊢
    exact hl
  · intro e st h
    have hl := lastActivation_handler_fails clear p e st h
    simp [clearCacheHandler, h] at hl ⊢
    exact hl

/-- C8 on a process started at time 7 with a busy store: with a
`clearRateLimitCache` that returns, and with one that throws. -/
theorem C8_activation_clears_and_schedules_witness :
    (clearCacheHandler clearOk (Process.boot 7 busyStore)).2.store = [] ∧
    (clearCacheHandler clearOk (Process.boot 7 busyStore)).2.timers = [300007] ∧
    (clearCacheHandler clearFails (Process.boot 7 busyStore)).1.statusCode = 500 ∧
    (clearCacheHandler clearFails (Process.boot 7 busyStore)).2.timers = [] :=
  have h := C8_activation_clears_and_schedules clearOk (Process.boot 7 busyStore)
  have g := C8_activation_clears_and_schedules clearFails (Process.boot 7 busyStore)
  ⟨(h.1 [] rfl).2.2.1, (h.1 [] rfl).2.2.2.2.1,
    (g.2 "store unavailable" busyStore rfl).1,
    (g.2 "store unavailable" busyStore rfl).2.2.2.2.1⟩

/-- C9: in the timed model, from a state in which the variable
`DISABLE_RATE_LIMITING` is not defined and no pending timer is overdue, after
every schedule of requests, timer firings and waits, whenever the variable is
defined there has been an activation and the time is at most 5 minutes
(300000 ms) after the most recent one. -/
theorem C9_override_time_bounded (p0 : Process) (schedule : List Action) (p : Process)
    (h0 : p0.DISABLE_RATE_LIMITING = none) (hd : ∀ d ∈ p0.timers, p0.now ≤ d)
    (hrun : exec p0 schedule = some p) (hset : p.DISABLE_RATE_LIMITING ≠ none) :
    ∃ ta, p.lastActivation = some ta ∧ p.now ≤ ta + 300000 := by
  have hinv0 : p0.Inv := ⟨hd, fun h => absurd h0 h⟩
  obtain ⟨hdue, hact⟩ := inv_exec schedule p0 p hinv0 hrun
  obtain ⟨ta, hta, hmem⟩ := hact hset
  exact ⟨ta, hta, by simpa [overrideDelay] using hdue _ hmem⟩

/-- C9 on the run that activates at time 0 and waits one second. -/
theorem C9_override_time_bounded_witness :
    exec (Process.boot 0 []) [Action.post clearOk, Action.wait 1000]
      = some oneSecondAfterActivation ∧
    oneSecondAfterActivation.DISABLE_RATE_LIMITING ≠ none ∧
    ∃ ta, oneSecondAfterActivation.lastActivation = some ta ∧
      oneSecondAfterActivation.now ≤ ta + 300000 :=
  ⟨by decide, by decide,
    C9_override_time_bounded (Process.boot 0 []) [Action.post clearOk, Action.wait 1000]
      oneSecondAfterActivation rfl (by simp [Process.boot]) (by decide) (by decide)⟩

/-- After the due time of the most recent activation has passed, the variable
is not defined: rate limiting is on again. -/
theorem override_cleared_after_bound (p0 : Process) (schedule : List Action) (p : Process)
    (ta : Nat) (h0 : p0.DISABLE_RATE_LIMITING = none) (hd : ∀ d ∈ p0.timers, p0.now ≤ d)
    (hrun : exec p0 schedule = some p) (hta : p.lastActivation = some ta)
    (hlate : ta + 300000 < p.now) : p.DISABLE_RATE_LIMITING = none := by
  by_contra hset
  obtain ⟨tb, htb, hle⟩ := override_bound_of_run p0 schedule p h0 hd hrun hset
  rw [hta] at htb
  have : ta = tb := by simpa using htb
  subst this
  omega

/-- C10 fails on the code: with activations at times 0 and 60000, both
answered with `success = true`, the timer of the first activation is still
pending after the second; it fires at time 300000 and deletes the variable,
60 seconds before the 5 minutes of the second activation are over. -/
theorem C10_first_timer_ends_reactivated_override :
    (exec (Process.boot 0 []) [Action.post clearOk, Action.wait 60000]).map
        (fun q => ((clearCacheHandler clearOk q).1.statusCode,
          (clearCacheHandler clearOk q).1.body.success,
          (clearCacheHandler clearOk q).2.timers))
      = some (200, true, [300000, 360000]) ∧
    (exec (Process.boot 0 []) reactivationSchedule).map
        (fun p => (p.now, p.lastActivation, p.DISABLE_RATE_LIMITING, p.timers))
      = some (300000, some 60000, none, [360000]) ∧
    300000 < 60000 + overrideDelay := by
  decide

/-- The same happens for every pair of activations less than 5 minutes
apart, at times `t1` and `t1 + gap` with `gap + rest` the 5 minutes: the timer
of the first activation fires at its own due time, `rest` after the second
activation, and deletes the variable before the 5 minutes of the second
activation are over. -/
theorem reactivation_ends_at_first_due (t1 gap rest : Nat) (store : RateLimitStore)
    (hg : 0 < gap) (hr : 0 < rest) (hsum : gap + rest = overrideDelay) :
    ∃ p, exec (Process.boot t1 store)
        [Action.post clearOk, Action.wait gap, Action.post clearOk,
          Action.wait rest, Action.fire] = some p ∧
      p.now = t1 + gap + rest ∧ p.lastActivation = some (t1 + gap) ∧
      p.DISABLE_RATE_LIMITING = none ∧ p.timers = [t1 + gap + overrideDelay] ∧
      p.now < t1 + gap + overrideDelay := by
  have h0 : t1 + overrideDelay = t1 + gap + rest := by omega
  have h1 : t1 + gap ≤ t1 + gap + rest := by omega
  have h3 : rest ≤ overrideDelay := by omega
  simp [exec, step, Process.boot, clearCacheHandler, clearOk, takeDue,
    timerCallback, Process.lastActivation, h0, h1, h3, List.filterMap_cons]
  omega

/-! ## The claim on the request pipeline -/

/-- In a list split at an element, everything before the first occurrence of
that element is before every split at it. -/
theorem mem_before_of_split {α : Type} (x : α) (l1 l2 pre post : List α) (hx : x ∉ l1)
    (h : l1 ++ x :: l2 = pre ++ x :: post) : ∀ y ∈ l1, y ∈ pre := by
  induction l1 generalizing pre with
  | nil => simp
  | cons a l1 ih =>
    cases pre with
    | nil =>
      simp only [List.cons_append, List.nil_append, List.cons.injEq] at h
      exact absurd (by simp [h.1]) hx
    | cons p pre =>
      simp only [List.cons_append, List.cons.injEq] at h
      intro y hy
      rcases List.mem_cons.1 hy with hy | hy
      · simp [hy, h.1]
      · exact List.mem_cons_of_mem _
          (ih pre (fun hmem => hx (List.mem_cons_of_mem _ hmem)) h.2 y hy)

/-- The chain of a request under one of the protected mounts. -/
theorem chainOf_auth_mount (method : String) (segs : List String) (name : String)
    (lim : List Handler) (routes : Handler) (hm : (name, lim, routes) ∈ authMounts)
    (hp : startsWith ["api", name] segs = true) :
    chainOf method segs app =
      commonChain ++ lim ++ [Handler.authenticateToken, routes, Handler.notFound] := by
  rcases segs with _ | ⟨a, _ | ⟨b, rest⟩⟩
  · simp [startsWith] at hp
  · simp [startsWith] at hp
  · simp only [startsWith, Bool.and_true, Bool.and_eq_true, beq_iff_eq] at hp
    obtain ⟨ha, hb⟩ := hp
    subst ha hb
    simp only [authMounts, List.mem_cons, Prod.mk.injEq, List.mem_singleton, List.not_mem_nil,
      or_false] at hm
    rcases hm with ⟨h1, h2, h3⟩ | ⟨h1, h2, h3⟩ | ⟨h1, h2, h3⟩ | ⟨h1, h2, h3⟩ |
        ⟨h1, h2, h3⟩ | ⟨h1, h2, h3⟩ <;>
      subst h1 h2 h3 <;>
      simp [chainOf, app, Mount.accepts, startsWith, commonChain]

/-- The handler `authenticateToken` is in the chain of a request only under
one of the protected mounts. -/
theorem auth_only_under_auth_mount (method : String) (segs : List String)
    (h : Handler.authenticateToken ∈ chainOf method segs app) :
    ∃ m ∈ authMounts, startsWith ["api", m.1] segs = true := by
  rcases segs with _ | ⟨a, _ | ⟨b, rest⟩⟩
  · simp [chainOf, app, Mount.accepts, startsWith] at h
  · simp [chainOf, app, Mount.accepts, startsWith] at h
    split_ifs at h <;> simp at h
  · by_cases ha : "api" = a
    · subst ha
      by_cases h1 : "media" = b
      · exact ⟨("media", [Handler.uploadLimiter], Handler.mediaRoutes), by simp [authMounts], by simp [startsWith, h1]⟩
      by_cases h2 : "screens" = b
      · exact ⟨("screens", [], Handler.screenRoutes), by simp [authMounts], by simp [startsWith, h2]⟩
      by_cases h3 : "playlists" = b
      · exact ⟨("playlists", [], Handler.playlistRoutes), by simp [authMounts], by simp [startsWith, h3]⟩
      by_cases h4 : "assignments" = b
      · exact ⟨("assignments", [], Handler.assignmentRoutes), by simp [authMounts], by simp [startsWith, h4]⟩
      by_cases h5 : "dashboard" = b
      · exact ⟨("dashboard", [Handler.dashboardLimiter], Handler.dashboardRoutes), by simp [authMounts], by simp [startsWith, h5]⟩
      by_cases h6 : "monitoring" = b
      · exact ⟨("monitoring", [], Handler.monitoringRoutes), by simp [authMounts], by simp [startsWith, h6]⟩
      exfalso
      simp [chainOf, app, Mount.accepts, startsWith, h1, h2, h3, h4, h5, h6] at h
      split_ifs at h <;> simp at h
    · exfalso
      simp [chainOf, app, Mount.accepts, startsWith, ha] at h
      split_ifs at h <;> simp at h

/-- No limiter of a protected mount is `authenticateToken`. -/
theorem auth_not_in_limiters (m : String × List Handler × Handler) (hm : m ∈ authMounts) :
    Handler.authenticateToken ∉ commonChain ++ m.2.1 := by
  simp only [authMounts, List.mem_cons, List.mem_singleton, List.not_mem_nil, or_false] at hm
  rcases hm with h | h | h | h | h | h <;> subst h <;> decide

/-- For every request, whatever part of its chain has run (the chain stops at
a handler that responds instead of calling `next()`), `authenticateToken` has
run only after `cors` and after the rate limiter `apiLimiter`. -/
theorem auth_after_cors_and_rate_limit (req : HttpRequest) (ran rest pre post : List Handler)
    (hr : chain req = ran ++ rest) (hs : ran = pre ++ Handler.authenticateToken :: post) :
    Handler.cors ∈ pre ∧ Handler.apiLimiter ∈ pre := by
  have hmem : Handler.authenticateToken ∈ chainOf req.method (segments req.path) app := by
    have : Handler.authenticateToken ∈ chain req := by simp [hr, hs]
    exact this
  obtain ⟨m, hm, hp⟩ := auth_only_under_auth_mount _ _ hmem
  have hc := chainOf_auth_mount req.method (segments req.path) m.1 m.2.1 m.2.2 hm hp
  have hsplit : (commonChain ++ m.2.1) ++
      Handler.authenticateToken :: [m.2.2, Handler.notFound] =
      pre ++ Handler.authenticateToken :: (post ++ rest) := by
    have : chain req = chainOf req.method (segments req.path) app := rfl
    rw [← hc, ← this, hr, hs]
    simp
  have hbefore := mem_before_of_split Handler.authenticateToken _ _ pre (post ++ rest)
    (auth_not_in_limiters m hm) hsplit
  exact ⟨hbefore _ (by simp [commonChain]), hbefore _ (by simp [commonChain])⟩

/-- C11: for each protected mount (`/api/media`, `/api/screens`,
`/api/playlists`, `/api/assignments`, `/api/dashboard`, `/api/monitoring`),
the chain of a matching request is the common handlers (`helmet`, `cors`,
`morgan`, `apiLimiter`, ...), then the limiter specific to the route if any,
then `authenticateToken`, then the router; so it contains `cors`,
`apiLimiter`, the route limiter, `authenticateToken` and the router in that
order, and in whatever part of the chain has run `authenticateToken` comes
after `cors`, after `apiLimiter` and after the route limiter. -/
theorem C11_pipeline_order (req : HttpRequest) (name : String) (lim : List Handler)
    (routes : Handler) (hm : (name, lim, routes) ∈ authMounts)
    (hp : startsWith ["api", name] (segments req.path) = true) :
    chain req =
      commonChain ++ lim ++ [Handler.authenticateToken, routes, Handler.notFound] ∧
    List.Sublist ([Handler.cors, Handler.apiLimiter] ++ lim ++
      [Handler.authenticateToken, routes]) (chain req) ∧
    (∀ ran rest pre post, chain req = ran ++ rest →
      ran = pre ++ Handler.authenticateToken :: post →
      Handler.cors ∈ pre ∧ Handler.apiLimiter ∈ pre ∧ ∀ l ∈ lim, l ∈ pre) := by
  have hc : chain req =
      commonChain ++ lim ++ [Handler.authenticateToken, routes, Handler.notFound] :=
    chainOf_auth_mount req.method (segments req.path) name lim routes hm hp
  refine ⟨hc, ?_, ?_⟩
  · rw [hc]
    simp only [authMounts, List.mem_cons, Prod.mk.injEq, List.mem_singleton, List.not_mem_nil,
      or_false] at hm
    rcases hm with ⟨h1, h2, h3⟩ | ⟨h1, h2, h3⟩ | ⟨h1, h2, h3⟩ | ⟨h1, h2, h3⟩ |
        ⟨h1, h2, h3⟩ | ⟨h1, h2, h3⟩ <;>
      subst h1 h2 h3 <;> decide
  · intro ran rest pre post hr hs
    have hsplit : (commonChain ++ lim) ++
        Handler.authenticateToken :: [routes, Handler.notFound] =
        pre ++ Handler.authenticateToken :: (post ++ rest) := by
      rw [← hc, hr, hs]
      simp
    have hbefore := mem_before_of_split Handler.authenticateToken _ _ pre (post ++ rest)
      (auth_not_in_limiters (name, lim, routes) hm) hsplit
    exact ⟨hbefore _ (by simp [commonChain]), hbefore _ (by simp [commonChain]),
      fun l hl => hbefore l (by simp [hl])⟩

/-- C11 on `GET /api/media/42`. -/
theorem C11_pipeline_order_witness :
    ("media", [Handler.uploadLimiter], Handler.mediaRoutes) ∈ authMounts ∧
    startsWith ["api", "media"] (segments "/api/media/42") = true ∧
    chain { method := "GET", path := "/api/media/42" } =
      commonChain ++ [Handler.uploadLimiter] ++
        [Handler.authenticateToken, Handler.mediaRoutes, Handler.notFound] :=
  ⟨by decide, by decide,
    (C11_pipeline_order { method := "GET", path := "/api/media/42" } "media"
      [Handler.uploadLimiter] Handler.mediaRoutes (by decide) (by decide)).1⟩

/-! ## The claim on self-issued tokens -/

theorem readNat_writeNat (n : Nat) (rest : List Char) :
    readNat (writeNat n ++ rest) = some (n, rest) := by
  induction n with
  | zero => simp [writeNat, readNat]
  | succ k ih =>
    have h : writeNat (k + 1) ++ rest = '1' :: (writeNat k ++ rest) := by
      simp [writeNat, List.replicate_succ]
    rw [h]
    simp [readNat, ih]

theorem readText_writeText (s rest : List Char) :
    readText (writeText s ++ rest) = some (s, rest) := by
  simp [readText, writeText, List.append_assoc, readNat_writeNat]

theorem readOptText_writeOptText (s : Option (List Char)) (rest : List Char) :
    readOptText (writeOptText s ++ rest) = some (s, rest) := by
  cases s with
  | none => simp [writeOptText, readOptText]
  | some t => simp [writeOptText, readOptText, readText_writeText]

/-- The sample decoding recovers what the sample encoding encoded. -/
theorem sampleDecode_sampleEncode (payload : TokenPayload) (signature : String) :
    sampleDecode (sampleEncode payload signature) = some (payload, signature) := by
  have h5 := readText_writeText signature.data []
  rw [List.append_nil] at h5
  cases payload with
  | mk id email issuedAt expiresAt =>
    cases email <;>
      simp [sampleDecode, sampleEncode, List.append_assoc, readText_writeText,
        readOptText_writeOptText, readNat_writeNat, h5]

/-- Verification at the time of issue, for a service that decodes what it
encodes and issues tokens with a positive lifetime. -/
theorem verifyToken_generateToken_now (auth : AuthService) (user : User) (now : Nat)
    (hcodec : ∀ payload signature,
      auth.decode (auth.encode payload signature) = some (payload, signature))
    (hl : 0 < auth.lifetime) :
    auth.verifyToken now (auth.generateToken now user) = some user.principal := by
  have hlt : now < now + auth.lifetime := by omega
  simp [AuthService.verifyToken, AuthService.generateToken, hcodec, hlt, User.principal]

/-- C12: for a service whose decoding recovers what its encoding encoded and
whose token lifetime is positive, and for every user, verifying the token
generated for the user at the very time it is issued returns a principal with
the id and email of the user; verifying the same token again, at any time
before it expires, returns the same principal. -/
theorem C12_token_round_trip (auth : AuthService) (user : User) (now : Nat)
    (hcodec : ∀ payload signature,
      auth.decode (auth.encode payload signature) = some (payload, signature))
    (hl : 0 < auth.lifetime) :
    auth.verifyToken now (auth.generateToken now user) = some user.principal ∧
    (auth.verifyToken now (auth.generateToken now user)).map Principal.id = some user.id ∧
    (auth.verifyToken now (auth.generateToken now user)).map Principal.email
      = some user.email ∧
    (∀ later, later < now + auth.lifetime →
      auth.verifyToken later (auth.generateToken now user) = some user.principal) := by
  have key : ∀ later, later < now + auth.lifetime →
      auth.verifyToken later (auth.generateToken now user) = some user.principal := by
    intro later hlater
    simp [AuthService.verifyToken, AuthService.generateToken, hcodec, hlater, User.principal]
  have h0 := key now (by omega)
  refine ⟨h0, ?_, ?_, key⟩
  · rw [h0]
    rfl
  · rw [h0]
    rfl

/-- C12 on the user of `test-setup.js`, with the sample service. -/
theorem C12_token_round_trip_witness :
    0 < sampleAuthService.lifetime ∧
    sampleAuthService.verifyToken 1000 (sampleAuthService.generateToken 1000 testUser)
      = some { id := "test-id", email := some "test@example.com",
               source := Source.selfIssued } :=
  ⟨by decide,
    (C12_token_round_trip sampleAuthService testUser 1000 sampleDecode_sampleEncode
      (by decide)).1⟩

/-- Past its expiry a generated token no longer verifies. -/
theorem verifyToken_expired (auth : AuthService) (user : User) (now later : Nat)
    (hcodec : ∀ payload signature,
      auth.decode (auth.encode payload signature) = some (payload, signature))
    (hlate : now + auth.lifetime ≤ later) :
    auth.verifyToken later (auth.generateToken now user) = none := by
  have : ¬ later < now + auth.lifetime := by omega
  simp [AuthService.verifyToken, AuthService.generateToken, hcodec, this]

/-- A generated token presented as `Bearer <token>` is accepted by
`authenticateToken` for the user, without a call of the External Identity
Verifier, when its text has no space. -/
theorem generated_token_authenticates (auth : AuthService) (user : User) (now : Nat)
    (external : String → Completion (Option Principal)) (nx : Nat → Completion Unit)
    (hcodec : ∀ payload signature,
      auth.decode (auth.encode payload signature) = some (payload, signature))
    (hl : 0 < auth.lifetime) (hne : auth.generateToken now user ≠ "")
    (hsp : ' ' ∉ (auth.generateToken now user).data) :
    runAuthenticateToken (auth.services now external nx)
        (requestWith (some (String.mk ("Bearer".data ++ ' ' ::
          (auth.generateToken now user).data)))) =
      acceptTail (auth.services now external nx) user.principal
        [Event.verifyToken (auth.generateToken now user)] := by
  have ht := tokenOf_any_scheme "Bearer".data (auth.generateToken now user).data
    (by decide) hsp
  have hv : (auth.services now external nx).verifyToken (auth.generateToken now user)
      = Completion.returned (some user.principal) := by
    simp [AuthService.services, (verifyToken_generateToken_now auth user now hcodec hl)]
  exact run_auth_first _ _ _ _ ht hne hv

/-! ## The claim on the API client -/

theorem storageGet_storageRemove (key : String) (entries : List (String × String)) :
    storageGet key (storageRemove key entries) = none := by
  induction entries with
  | nil => rfl
  | cons kv rest ih =>
    obtain ⟨k, v⟩ := kv
    by_cases h : k = key
    · simp [storageRemove, h, ih]
    · simp [storageRemove, storageGet, h, ih]

/-- The request of `logout` in a browser: what is stored is left as it is,
and the request completes as `fetch` and the response make it. -/
theorem request_logout_run (br : Browser) (s : ClientState) (hw : br.window = true) :
    (ApiClient.request "/api/auth/logout" logoutOptions br s).2.localStorage
      = s.localStorage ∧
    (ApiClient.request "/api/auth/logout" logoutOptions br s).1 =
      (match br.fetch (br.baseURL ++ "/api/auth/logout") (logoutConfig br s) with
        | Completion.thrown e => Completion.thrown e
        | Completion.returned r =>
          if r.ok = false then
            Completion.thrown
              (httpErrorMessage
                (match r.json with
                  | Completion.returned b => b
                  | Completion.thrown _ => { error := none, token := none })
                r.status)
          else if hasJsonContentType r = true then
            (match r.json with
              | Completion.returned b => Completion.returned (RequestResult.body b)
              | Completion.thrown e => Completion.thrown e)
          else Completion.returned (RequestResult.response r)) := by
  cases ht : truthy (storageGet "api_token" s.localStorage) <;>
    cases hf : br.fetch (br.baseURL ++ "/api/auth/logout") (logoutConfig br s) with
    | thrown e =>
      simp [logoutConfig, hw, ht] at hf
      simp [ApiClient.request, hw, ht, bind, Cl.bind, Cl.pure, Cl.tryCatch, Cl.throw,
        localStorageGetItem, fetch, clientConsoleError, initialConfig, logoutOptions,
        setHeader, hf]
    | returned r =>
      simp [logoutConfig, hw, ht] at hf
      cases hok : r.ok <;> cases hj : r.json <;> cases hc : hasJsonContentType r <;>
        simp [ApiClient.request, hw, ht, bind, Cl.bind, Cl.pure, Cl.tryCatch, Cl.throw,
          localStorageGetItem, fetch, clientConsoleError, initialConfig, logoutOptions,
          setHeader, hf, hok, hj, hc, responseJson]

/-- How `logout` completes, given how its request completes: the finalizer
does not throw, so a throw of the request is the throw of `logout`. -/
theorem logout_run (br : Browser) (s : ClientState) (hw : br.window = true) :
    (ApiClient.logout br s).2.localStorage = storageRemove "api_token" s.localStorage ∧
    (ApiClient.logout br s).1 =
      (match (ApiClient.request "/api/auth/logout" logoutOptions br s).1 with
        | Completion.returned _ => Completion.returned ()
        | Completion.thrown e => Completion.thrown e) := by
  have hs := (request_logout_run br s hw).1
  rcases hr : ApiClient.request "/api/auth/logout" logoutOptions br s with ⟨c, s1⟩
  rw [hr] at hs
  cases c <;>
    simp [ApiClient.logout, Cl.tryFinally, bind, Cl.bind, Cl.pure, hr, hw,
      localStorageRemoveItem] <;>
    exact congrArg _ hs

/-- C13: in a browser, however the request `POST /api/auth/logout` ends,
`api_token` is absent from local storage when `logout` settles, and `logout`
settles as the request did: it rejects with the error of a `fetch` that
failed, with the error built from a response that is not `ok`, with the error
of a body that does not parse, and resolves otherwise. -/
theorem C13_logout_clears_token (br : Browser) (s : ClientState) (hw : br.window = true) :
    storageGet "api_token" (ApiClient.logout br s).2.localStorage = none ∧
    (ApiClient.logout br s).1 =
      (match (ApiClient.request "/api/auth/logout" logoutOptions br s).1 with
        | Completion.returned _ => Completion.returned ()
        | Completion.thrown e => Completion.thrown e) ∧
    (∀ e, br.fetch (br.baseURL ++ "/api/auth/logout") (logoutConfig br s)
        = Completion.thrown e →
      (ApiClient.logout br s).1 = Completion.thrown e) ∧
    (∀ r, br.fetch (br.baseURL ++ "/api/auth/logout") (logoutConfig br s)
        = Completion.returned r → r.ok = false →
      (ApiClient.logout br s).1 =
        Completion.thrown
          (httpErrorMessage
            (match r.json with
              | Completion.returned b => b
              | Completion.thrown _ => { error := none, token := none })
            r.status)) ∧
    (∀ r, br.fetch (br.baseURL ++ "/api/auth/logout") (logoutConfig br s)
        = Completion.returned r → r.ok = true →
      (ApiClient.logout br s).1 =
        (if hasJsonContentType r = true then
          (match r.json with
            | Completion.returned _ => Completion.returned ()
            | Completion.thrown e => Completion.thrown e)
        else Completion.returned ())) := by
  obtain ⟨hst, hc⟩ := logout_run br s hw
  have hreq := (request_logout_run br s hw).2
  refine ⟨?_, hc, ?_, ?_, ?_⟩
  · rw [hst]
    exact storageGet_storageRemove _ _
  · intro e hf
    rw [hc, hreq, hf]
  · intro r hf hok
    rw [hc, hreq, hf]
    simp [hok]
  · intro r hf hok
    rw [hc, hreq, hf]
    cases hj : hasJsonContentType r <;> cases hjs : r.json <;> simp [hok, hj, hjs]

/-- C13 in a browser that holds a token while the network is down. -/
theorem C13_logout_clears_token_witness :
    offlineBrowser.window = true ∧
    storageGet "api_token" signedIn.localStorage = some "abc" ∧
    storageGet "api_token" (ApiClient.logout offlineBrowser signedIn).2.localStorage = none ∧
    (ApiClient.logout offlineBrowser signedIn).1
      = Completion.thrown "TypeError: Failed to fetch" :=
  have h := C13_logout_clears_token offlineBrowser signedIn rfl
  ⟨rfl, by decide, h.1, h.2.2.1 "TypeError: Failed to fetch" rfl⟩

/-- Outside a browser `logout` leaves what is stored as it is. -/
theorem logout_outside_browser (br : Browser) (s : ClientState) (hw : br.window = false) :
    (ApiClient.logout br s).2.localStorage = s.localStorage := by
  cases hf : br.fetch (br.baseURL ++ "/api/auth/logout") (initialConfig logoutOptions) with
  | thrown e =>
    simp [ApiClient.logout, Cl.tryFinally, ApiClient.request, hw, bind, Cl.bind, Cl.pure,
      Cl.tryCatch, Cl.throw, fetch, clientConsoleError, hf]
  | returned r =>
    cases hok : r.ok <;> cases hj : r.json <;> cases hc : hasJsonContentType r <;>
      simp [ApiClient.logout, Cl.tryFinally, ApiClient.request, hw, bind, Cl.bind, Cl.pure,
        Cl.tryCatch, Cl.throw, fetch, clientConsoleError, hf, hok, hj, hc, responseJson]

end MediaBoard
